/-
Verification of the SNGPL IoT ingestion-and-alarming pipeline.

Shallow embedding of the core pipeline of the repository:
  * app/services/mqtt_service.py      (MQTTService: in-app ingestion path)
  * mqtt_listener.py                  (StandaloneMQTTListener: standalone path)
  * app/services/websocket_service.py (ConnectionManager: fan-out broadcaster)
  * app/models/models.py              (Device / DeviceReading / Alarm rows)

Modelling conventions:
  * Python floats are modelled as exact rationals (Rat); every comparison in
    the threshold engine is a plain order comparison, which floats and
    rationals agree on for the decimal literals involved.
  * Wall-clock instants (datetime values) are modelled as Int, counted in
    seconds; timedelta(minutes=90) is the constant 5400.
  * A SQLAlchemy session is modelled by explicit state passing: the committed
    database is a DB value, uncommitted in-session changes are ordinary local
    values that reach the committed DB only at the points where the source
    calls db.commit().  db.rollback()/db.close() without commit simply return
    the previously committed DB.
  * A frame already decoded from JSON is a Frame; fields absent from the JSON
    object appear with their .get defaults, exactly as in the source.
  * float(x) on the wire value is modelled by ValueField.toFloat: a missing
    "Addrv" key defaults to 0, a numeric value converts, a non-numeric value
    raises (None result), mirroring Python float().
-/
import Mathlib

/-- The "Addrv" field of one sensor pair, as seen by float(item.get("Addrv", 0))
in both ingestion paths: the key may be absent (Python default 0), hold a
numeric value, or hold a value that float() cannot convert (raises ValueError). -/
inductive ValueField where
  | absent : ValueField
  | num : Rat → ValueField
  | malformed : ValueField
deriving Repr, DecidableEq

/-- Result of float(item.get("Addrv", 0)): none means float() raised. -/
def ValueField.toFloat : ValueField → Option Rat
  | .absent => some 0
  | .num q => some q
  | .malformed => none

/-- One element of the frame's "content" array: item.get("Addr") (none when the
key is missing) and the "Addrv" field. -/
structure SensorItem where
  addr : Option String
  addrv : ValueField
deriving Repr, DecidableEq

/-- One decoded MQTT frame, after json.loads: data.get("did",""),
data.get("Utime","") and data.get("content",[]). -/
structure Frame where
  did : String
  utime : String
  content : List SensorItem
deriving Repr, DecidableEq

/-- A row of the devices table (app/models/models.py, class Device), restricted
to the columns the pipeline reads or writes.  last_seen is nullable (a device
row freshly inserted by the pipeline has no last_seen until its first accepted
frame is committed). -/
structure Device where
  id : Nat
  client_id : String
  device_name : String
  device_type : String
  location : String
  latitude : Rat
  longitude : Rat
  is_active : Bool
  last_seen : Option Int
deriving Repr, DecidableEq

/-- A row of the device_readings table (class DeviceReading).  The pipeline
always populates every quantity column (sensor_data.get(code, 0.0)), so the
quantity fields are total here; the `is not None` guards of check_alarms are
consequently always true for pipeline-built readings. -/
structure DeviceReading where
  device_id : Nat
  client_id : String
  temperature : Rat
  static_pressure : Rat
  differential_pressure : Rat
  max_static_pressure : Rat
  min_static_pressure : Rat
  volume : Rat
  total_volume_flow : Rat
  battery : Rat
  last_hour_flow_time : Rat
  last_hour_diff_pressure : Rat
  last_hour_static_pressure : Rat
  last_hour_temperature : Rat
  last_hour_volume : Rat
  last_hour_energy : Rat
  specific_gravity : Rat
  timestamp : Int
deriving Repr, DecidableEq

/-- A row of the alarms table (class Alarm), restricted to the columns the
create_alarm helpers actually set. -/
structure Alarm where
  device_id : Nat
  client_id : String
  parameter : String
  value : Rat
  threshold_type : String
  severity : String
  is_acknowledged : Bool
deriving Repr, DecidableEq

/-- The committed persistent store: the three tables the pipeline touches plus
the integer primary-key sequence for devices. -/
structure DB where
  devices : List Device
  readings : List DeviceReading
  alarms : List Alarm
  next_device_id : Nat
deriving Repr, DecidableEq

/- ------------------------------------------------------------------
   datetime.strptime(utime_str, "%Y/%m/%d %H:%M:%S")
   ------------------------------------------------------------------ -/

/-- Split a character list at every occurrence of the separator (keeping empty
segments, like Python str.split("/") on "a//b"). -/
def splitChar (sep : Char) : List Char → List (List Char)
  | [] => [[]]
  | c :: rest =>
    match splitChar sep rest with
    | [] => if c = sep then [[], [c]] else [[c]]
    | h :: t => if c = sep then [] :: h :: t else (c :: h) :: t

/-- Value of a non-empty all-digit character list; none otherwise (one strptime
numeric field). -/
def digitsVal (cs : List Char) : Option Nat :=
  if cs ≠ [] ∧ cs.all (fun c => c.isDigit) then
    some (cs.foldl (fun n c => n * 10 + (c.toNat - 48)) 0)
  else none

/-- One strptime numeric directive: between 1 and maxLen digits. -/
def parseField (maxLen : Nat) (cs : List Char) : Option Nat :=
  if cs.length ≤ maxLen then digitsVal cs else none

/-- Gregorian leap-year rule, as validated by datetime. -/
def isLeapYear (y : Nat) : Bool :=
  y % 4 = 0 && (y % 100 ≠ 0 || y % 400 = 0)

/-- Days in a month, as validated by datetime. -/
def daysInMonth (y m : Nat) : Nat :=
  if m = 2 then (if isLeapYear y then 29 else 28)
  else if m = 4 ∨ m = 6 ∨ m = 9 ∨ m = 11 then 30
  else 31

/-- Injective mixed-radix encoding of a calendar instant into seconds.  The
model never mixes encoded device instants with arrival instants arithmetically
(the offline sweep only compares arrival instants), so any injective monotone
encoding is faithful. -/
def encodeInstant (y m d hh mm ss : Nat) : Int :=
  ((((((y : Int) * 12 + ((m : Int) - 1)) * 31 + ((d : Int) - 1)) * 24
      + (hh : Int)) * 60 + (mm : Int)) * 60 + (ss : Int))

/-- datetime.strptime(s, "%Y/%m/%d %H:%M:%S"): the whole string must match the
pattern and the fields must form a valid calendar instant; none models the
ValueError raised on failure. -/
def parseUtime (s : String) : Option Int :=
  match splitChar ' ' s.toList with
  | [datePart, timePart] =>
    match splitChar '/' datePart, splitChar ':' timePart with
    | [ys, ms, ds], [hs, mins, secs] =>
      match parseField 4 ys, parseField 2 ms, parseField 2 ds,
            parseField 2 hs, parseField 2 mins, parseField 2 secs with
      | some y, some m, some d, some hh, some mm, some ss =>
        if 1 ≤ m ∧ m ≤ 12 ∧ 1 ≤ d ∧ d ≤ daysInMonth y m
            ∧ hh ≤ 23 ∧ mm ≤ 59 ∧ ss ≤ 59 then
          some (encodeInstant y m d hh mm ss)
        else none
      | _, _, _, _, _, _ => none
    | _, _ => none
  | _ => none

example : parseUtime "2025/03/01 10:00:00" = some 65090512800 := by decide
example : parseUtime "2026/1/12 23:14:13" = some 65118294853 := by decide
example : parseUtime "not a date" = none := by decide
example : parseUtime "2025/02/30 10:00:00" = none := by decide
/-- Python str.strip(): remove leading and trailing whitespace. -/
def pyStrip (s : String) : String :=
  ⟨((s.toList.dropWhile Char.isWhitespace).reverse.dropWhile Char.isWhitespace).reverse⟩

example : pyStrip "  2025/03/01 10:00:00  " = "2025/03/01 10:00:00" := by decide
example : pyStrip "" = "" := by decide
example : pyStrip "  " = "" := by decide

/- ------------------------------------------------------------------
   Sensor-pair decoding: the sensor_data dict
   (mqtt_service.py lines 100-107, mqtt_listener.py lines 165-174)
   ------------------------------------------------------------------ -/

/-- The sensor_data Python dict: key "Addr" value (possibly None) to float. -/
abbrev SensorMap := Option String → Option Rat

/-- The loop `for item in content: sensor_data[addr] = float(item.get("Addrv", 0))`.
An unconvertible value makes float() raise, aborting the loop and the whole
frame (none); otherwise later occurrences of a key overwrite earlier ones. -/
def buildSensorData : List SensorItem → SensorMap → Option SensorMap
  | [], m => some m
  | item :: rest, m =>
    match item.addrv.toFloat with
    | none => none
    | some v => buildSensorData rest (fun a => if a = item.addr then some v else m a)

/-- The last sensor pair in the list carrying the given code (spec-side notion
used to characterise last-write-wins). -/
def lastItem (code : Option String) : List SensorItem → Option SensorItem
  | [] => none
  | item :: rest =>
    match lastItem code rest with
    | some it => some it
    | none => if item.addr = code then some item else none

/-- Numeric value of the last sensor pair carrying the given code. -/
def lastValue (code : Option String) (items : List SensorItem) : Option Rat :=
  (lastItem code items).bind (fun it => it.addrv.toFloat)

/- ------------------------------------------------------------------
   Reading mapper (mqtt_service.py lines 129-151, mqtt_listener.py 201-221;
   both files build the DeviceReading row with the identical code table)
   ------------------------------------------------------------------ -/

/-- The DeviceReading(...) constructor call: every quantity column is
sensor_data.get(code, 0.0), with the fixed code table shared by both
ingestion paths. -/
def buildReading (device_id : Nat) (client_id : String) (sensor_data : SensorMap)
    (ts : Int) : DeviceReading :=
  { device_id := device_id
    client_id := client_id
    temperature := (sensor_data (some "T12")).getD 0
    static_pressure := (sensor_data (some "T11")).getD 0
    differential_pressure := (sensor_data (some "T10")).getD 0
    max_static_pressure := (sensor_data (some "T16")).getD 0
    min_static_pressure := (sensor_data (some "T17")).getD 0
    volume := (sensor_data (some "T14")).getD 0
    total_volume_flow := (sensor_data (some "T13")).getD 0
    battery := (sensor_data (some "T15")).getD 0
    last_hour_flow_time := (sensor_data (some "T18")).getD 0
    last_hour_diff_pressure := (sensor_data (some "T19")).getD 0
    last_hour_static_pressure := (sensor_data (some "T110")).getD 0
    last_hour_temperature := (sensor_data (some "T111")).getD 0
    last_hour_volume := (sensor_data (some "T112")).getD 0
    last_hour_energy := (sensor_data (some "T113")).getD 0
    specific_gravity := (sensor_data (some "T114")).getD 0
    timestamp := ts }

/- ------------------------------------------------------------------
   Threshold alarm engine
   (mqtt_service.py lines 170-286, mqtt_listener.py lines 269-409)
   ------------------------------------------------------------------ -/

/-- create_alarm: builds an Alarm row.  The threshold_value and message
arguments are accepted but not stored by the Alarm(...) constructor call in
the source, so they are ignored here too.  create_alarm always returns a
truthy alarm, making the `if alarm:` guards of check_alarms always pass. -/
def MQTTService.create_alarm (device_id : Nat) (client_id : String)
    (parameter : String) (value : Rat) (threshold_type : String)
    (_threshold_value : Rat) (_message : String) (severity : String) : Alarm :=
  { device_id := device_id, client_id := client_id, parameter := parameter
    value := value, threshold_type := threshold_type, severity := severity
    is_acknowledged := false }

/-- Temperature block of check_alarms: Red zone < 0 (low, severity high),
elif Yellow zone > 120 (high, severity medium).  Identical text in both
source files. -/
def temperature_alarms (device_id : Nat) (client_id : String)
    (r : DeviceReading) : List Alarm :=
  if r.temperature < 0 then
    [MQTTService.create_alarm device_id client_id "temperature" r.temperature
      "low" 0 "Temperature critically low (Red zone)" "high"]
  else if r.temperature > 120 then
    [MQTTService.create_alarm device_id client_id "temperature" r.temperature
      "high" 120 "Temperature critically high (Yellow zone)" "medium"]
  else []

/-- Static-pressure block: Yellow zone < 10 (low, severity medium), elif Red
zone > 140 (high, severity high). -/
def static_pressure_alarms (device_id : Nat) (client_id : String)
    (r : DeviceReading) : List Alarm :=
  if r.static_pressure < 10 then
    [MQTTService.create_alarm device_id client_id "static_pressure"
      r.static_pressure "low" 10 "Static Pressure low (Yellow zone)" "medium"]
  else if r.static_pressure > 140 then
    [MQTTService.create_alarm device_id client_id "static_pressure"
      r.static_pressure "high" 140 "Static Pressure critically high (Red zone)" "high"]
  else []

/-- Differential-pressure block: Yellow zone < 0 (low, severity medium), elif
Red zone > 400 (high, severity high). -/
def differential_pressure_alarms (device_id : Nat) (client_id : String)
    (r : DeviceReading) : List Alarm :=
  if r.differential_pressure < 0 then
    [MQTTService.create_alarm device_id client_id "differential_pressure"
      r.differential_pressure "low" 0 "Differential Pressure low (Yellow zone)" "medium"]
  else if r.differential_pressure > 400 then
    [MQTTService.create_alarm device_id client_id "differential_pressure"
      r.differential_pressure "high" 400
      "Differential Pressure critically high (Red zone)" "high"]
  else []

/-- Battery block: Red zone < 10 (low, severity high), elif Yellow zone > 14
(high, severity medium). -/
def battery_alarms (device_id : Nat) (client_id : String)
    (r : DeviceReading) : List Alarm :=
  if r.battery < 10 then
    [MQTTService.create_alarm device_id client_id "battery" r.battery
      "low" 10 "Battery critically low (Red zone)" "high"]
  else if r.battery > 14 then
    [MQTTService.create_alarm device_id client_id "battery" r.battery
      "high" 14 "Battery voltage high (Yellow zone)" "medium"]
  else []

/-- Specific-gravity block (mqtt_listener.py lines 371-391 only): Red zone
< 0.58 (low, severity high), elif Red zone > 0.69 (high, severity high). -/
def specific_gravity_alarms (device_id : Nat) (client_id : String)
    (r : DeviceReading) : List Alarm :=
  if r.specific_gravity < mkRat 58 100 then
    [MQTTService.create_alarm device_id client_id "specific_gravity"
      r.specific_gravity "low" (mkRat 58 100)
      "Specific Gravity too low (Red zone)" "high"]
  else if r.specific_gravity > mkRat 69 100 then
    [MQTTService.create_alarm device_id client_id "specific_gravity"
      r.specific_gravity "high" (mkRat 69 100)
      "Specific Gravity too high (Red zone)" "high"]
  else []

/-- MQTTService.check_alarms (mqtt_service.py lines 170-271): the four
parameter blocks in source order; alarms_created is their concatenation.
This engine has NO specific-gravity block. -/
def MQTTService.check_alarms (device_id : Nat) (client_id : String)
    (r : DeviceReading) : List Alarm :=
  temperature_alarms device_id client_id r
    ++ static_pressure_alarms device_id client_id r
    ++ differential_pressure_alarms device_id client_id r
    ++ battery_alarms device_id client_id r

/-- StandaloneMQTTListener.check_alarms (mqtt_listener.py lines 269-393): the
same four blocks followed by the specific-gravity block. -/
def StandaloneMQTTListener.check_alarms (device_id : Nat) (client_id : String)
    (r : DeviceReading) : List Alarm :=
  temperature_alarms device_id client_id r
    ++ static_pressure_alarms device_id client_id r
    ++ differential_pressure_alarms device_id client_id r
    ++ battery_alarms device_id client_id r
    ++ specific_gravity_alarms device_id client_id r

/-- The alarms of one parameter among a produced alarm list. -/
def alarmsFor (parameter : String) (as : List Alarm) : List Alarm :=
  as.filter (fun a => a.parameter == parameter)

/- ------------------------------------------------------------------
   Station registry: find-or-create of the Device row
   (mqtt_service.py lines 77-98, mqtt_listener.py lines 138-163)
   ------------------------------------------------------------------ -/

/-- db.query(Device).filter(Device.client_id == client_id).first() -/
def findDevice (db : DB) (client_id : String) : Option Device :=
  db.devices.find? (fun d => d.client_id == client_id)

/-- Python client_id.startswith("SMS-"): character-list comparison. -/
def pyStartswith (s : String) (pattern : String) : Bool :=
  go pattern.toList s.toList
where
  go : List Char → List Char → Bool
    | [], _ => true
    | _ :: _, [] => false
    | p :: ps, c :: cs => p == c && go ps cs

/-- Find-or-create of the device row in the in-app service.  A missing row is
inserted and committed immediately (db.add; db.commit(); db.refresh), before
any other side effect of the frame.  device_type is the column default
"SMS" (class Device). -/
def MQTTService.resolveDevice (db : DB) (client_id : String) : DB × Device :=
  match findDevice db client_id with
  | some d => (db, d)
  | none =>
    let d : Device :=
      { id := db.next_device_id, client_id := client_id
        device_name := "Device " ++ client_id, device_type := "SMS"
        location := "Unknown", latitude := 0, longitude := 0
        is_active := true, last_seen := none }
    ({ db with devices := db.devices ++ [d]
               next_device_id := db.next_device_id + 1 }, d)

/-- Find-or-create in the standalone listener (mqtt_listener.py lines 138-159):
identical except that device_type is computed from the identifier. -/
def StandaloneMQTTListener.resolveDevice (db : DB) (client_id : String) :
    DB × Device :=
  match findDevice db client_id with
  | some d => (db, d)
  | none =>
    let device_type := if !(pyStartswith client_id "SMS-") then "OTHER" else "SMS"
    let d : Device :=
      { id := db.next_device_id, client_id := client_id
        device_name := "Device " ++ client_id, device_type := device_type
        location := "Unknown", latitude := 0, longitude := 0
        is_active := true, last_seen := none }
    ({ db with devices := db.devices ++ [d]
               next_device_id := db.next_device_id + 1 }, d)

/- ------------------------------------------------------------------
   Deduplication gates and event timestamps
   ------------------------------------------------------------------ -/

/-- Service dedup query (mqtt_service.py lines 118-123): an existing
DeviceReading with the same client_id and timestamp. -/
def MQTTService.hasDuplicate (db : DB) (client_id : String) (ts : Int) : Bool :=
  db.readings.any (fun r => r.client_id == client_id && r.timestamp == ts)

/-- Listener dedup query (mqtt_listener.py lines 190-194): an existing
DeviceReading with the same device_id and timestamp, where the timestamp is
the freshly taken arrival instant datetime.now(). -/
def StandaloneMQTTListener.hasDuplicate (db : DB) (device_id : Nat) (ts : Int) :
    Bool :=
  db.readings.any (fun r => r.device_id == device_id && r.timestamp == ts)

/-- Service event timestamp (mqtt_service.py lines 109-116): datetime.now() as
fallback, replaced by strptime of the stripped Utime field when that field is
non-empty and parses. -/
def MQTTService.deviceTimestamp (f : Frame) (arrival : Int) : Int :=
  let utime_str := pyStrip f.utime
  if utime_str = "" then arrival
  else
    match parseUtime utime_str with
    | some t => t
    | none => arrival

/-- True exactly when the service logs the `Failed to parse Utime` warning
(non-empty stripped Utime whose strptime raises, mqtt_service.py line 116). -/
def MQTTService.utimeWarningLogged (f : Frame) : Bool :=
  pyStrip f.utime != "" && (parseUtime (pyStrip f.utime)).isNone

/- ------------------------------------------------------------------
   The per-frame transaction commit
   ------------------------------------------------------------------ -/

/-- The single db.commit() of an accepted frame (mqtt_service.py line 157,
mqtt_listener.py line 230): flushes the pending device mutation
(last_seen := arrival, is_active := True set before the dedup gate), the new
reading row and the alarm rows added by check_alarms, atomically. -/
def commitFrame (db : DB) (client_id : String) (arrival : Int)
    (reading : DeviceReading) (alarms_created : List Alarm) : DB :=
  { db with
    devices := db.devices.map (fun d =>
      if d.client_id == client_id then
        { d with last_seen := some arrival, is_active := true }
      else d)
    readings := db.readings ++ [reading]
    alarms := db.alarms ++ alarms_created }

/-- The WebSocket messages emitted by MQTTService.broadcast_update (lines
315-369): one device_update message carrying the five broadcast quantities
plus timestamp, and one alarm message per created alarm. -/
structure BroadcastOut where
  client_id : String
  device_id : Nat
  temperature : Rat
  static_pressure : Rat
  differential_pressure : Rat
  volume : Rat
  total_volume_flow : Rat
  timestamp : Int
  alarm_msgs : List Alarm
deriving Repr, DecidableEq

/-- Assemble the broadcast payload from the committed reading and alarms. -/
def mkBroadcastOut (client_id : String) (device_id : Nat)
    (reading : DeviceReading) (alarms_created : List Alarm) : BroadcastOut :=
  { client_id := client_id, device_id := device_id
    temperature := reading.temperature
    static_pressure := reading.static_pressure
    differential_pressure := reading.differential_pressure
    volume := reading.volume
    total_volume_flow := reading.total_volume_flow
    timestamp := reading.timestamp
    alarm_msgs := alarms_created }

/- ------------------------------------------------------------------
   MQTTService.process_device_data (mqtt_service.py lines 65-168)
   ------------------------------------------------------------------ -/

/-- The in-app ingestion path for one already-JSON-decoded frame.
State passing: the returned DB is the committed store after the call
(rollback/close discard uncommitted changes); the second component is the
broadcast fan-out payload, none when no broadcast happens.
`alarmWriteFails` injects a persistence fault while the alarm rows created by
check_alarms are added: the surrounding `except` then rolls the transaction
back, which discards the pending device update AND the pending reading row
(the reading is only committed at line 157, after check_alarms). -/
def MQTTService.process_device_data (db : DB) (f : Frame) (arrival : Int)
    (alarmWriteFails : Bool) : DB × Option BroadcastOut :=
  let client_id := pyStrip f.did
  if client_id = "" then (db, none)
  else
    let res := MQTTService.resolveDevice db client_id
    let db1 := res.1
    let device := res.2
    match buildSensorData f.content (fun _ => none) with
    | none => (db1, none)
    | some sensor_data =>
      let device_timestamp := MQTTService.deviceTimestamp f arrival
      if MQTTService.hasDuplicate db1 client_id device_timestamp then
        (db1, none)
      else
        let reading := buildReading device.id client_id sensor_data device_timestamp
        let alarms_created := MQTTService.check_alarms device.id client_id reading
        if alarmWriteFails && !alarms_created.isEmpty then (db1, none)
        else
          (commitFrame db1 client_id arrival reading alarms_created,
           some (mkBroadcastOut client_id device.id reading alarms_created))

/- ------------------------------------------------------------------
   StandaloneMQTTListener.process_device_data (mqtt_listener.py lines 125-261)
   ------------------------------------------------------------------ -/

/-- The standalone ingestion path.  Differences from the service path, all
from the source: the reading timestamp is current_timestamp = datetime.now()
(the Utime field is never read), the dedup gate is keyed on (device_id,
current_timestamp), alarm evaluation is gated by the monitoring flag file,
and there is no WebSocket broadcast. -/
def StandaloneMQTTListener.process_device_data (db : DB) (f : Frame)
    (arrival : Int) (monitoringEnabled : Bool) (alarmWriteFails : Bool) : DB :=
  let client_id := pyStrip f.did
  if client_id = "" then db
  else
    let res := StandaloneMQTTListener.resolveDevice db client_id
    let db1 := res.1
    let device := res.2
    match buildSensorData f.content (fun _ => none) with
    | none => db1
    | some sensor_data =>
      let current_timestamp := arrival
      if StandaloneMQTTListener.hasDuplicate db1 device.id current_timestamp then
        db1
      else
        let reading := buildReading device.id client_id sensor_data current_timestamp
        let alarms_created :=
          if monitoringEnabled then
            StandaloneMQTTListener.check_alarms device.id client_id reading
          else []
        if alarmWriteFails && !alarms_created.isEmpty then db1
        else commitFrame db1 client_id arrival reading alarms_created

/- ------------------------------------------------------------------
   Offline sweep (mqtt_listener.py lines 411-462)
   ------------------------------------------------------------------ -/

/-- timedelta(minutes=90) in seconds. -/
def offlineStaleness : Int := 5400

/-- Membership test of the sweep query: Device.is_active == True and
Device.last_seen < now - 90 minutes (a NULL last_seen compares false). -/
def isStale (now : Int) (d : Device) : Bool :=
  d.is_active &&
    (match d.last_seen with
     | some t => decide (t < now - offlineStaleness)
     | none => false)

/-- One tick of the offline monitor: every selected device gets
is_active = False and the batch is committed; nothing else changes (the
offline e-mail notification failure is caught per device and has no effect
on the store). -/
def StandaloneMQTTListener.check_offline_devices (db : DB) (now : Int) : DB :=
  { db with
    devices := db.devices.map (fun d =>
      if isStale now d then { d with is_active := false } else d) }

/- ------------------------------------------------------------------
   ConnectionManager (app/services/websocket_service.py)
   ------------------------------------------------------------------ -/

/-- Observable outcome of one ConnectionManager.broadcast call: which
connections were delivered to, which raised (the except branch printed an
error for them), and the active_connections list after the call. -/
structure BroadcastResult where
  delivered : List Nat
  errors_logged : List Nat
  connections_after : List Nat
deriving Repr, DecidableEq

/-- ConnectionManager.broadcast (lines 26-32): iterate over
active_connections; each send either succeeds or raises, a raise only prints
an error message.  The loop body never mutates active_connections. -/
def ConnectionManager.broadcast (active_connections : List Nat)
    (sendFails : Nat → Bool) : BroadcastResult :=
  let r := active_connections.foldl
    (fun (acc : List Nat × List Nat) c =>
      if sendFails c then (acc.1, acc.2 ++ [c]) else (acc.1 ++ [c], acc.2))
    ([], [])
  { delivered := r.1, errors_logged := r.2
    connections_after := active_connections }

/-- ConnectionManager.disconnect (lines 17-20): remove the first occurrence
of the websocket if present. -/
def ConnectionManager.disconnect (active_connections : List Nat)
    (websocket : Nat) : List Nat :=
  if websocket ∈ active_connections then active_connections.erase websocket
  else active_connections


/- ------------------------------------------------------------------
   Spec-side predicates and concrete fixtures
   ------------------------------------------------------------------ -/

/-- The dedup invariant of the in-app path: at most one reading per
(station identifier, event timestamp) pair. -/
def serviceKeyUnique (l : List DeviceReading) : Prop :=
  l.Pairwise (fun r s => ¬(r.client_id = s.client_id ∧ r.timestamp = s.timestamp))

/-- The dedup invariant the standalone path actually maintains: at most one
reading per (device row id, stored timestamp) pair. -/
def listenerKeyUnique (l : List DeviceReading) : Prop :=
  l.Pairwise (fun r s => ¬(r.device_id = s.device_id ∧ r.timestamp = s.timestamp))

/-- Number of stored readings carrying one (station identifier, timestamp)
key. -/
def readingCountByKey (db : DB) (cid : String) (ts : Int) : Nat :=
  (db.readings.filter (fun r => r.client_id == cid && r.timestamp == ts)).length

/-- Fresh store: no devices, no readings, no alarms. -/
def emptyDB : DB := ⟨[], [], [], 1⟩

/-- A frame with a well-formed station-supplied time and no sensor pairs. -/
def frameST7 : Frame := ⟨"ST-7", "2025/03/01 10:00:00", []⟩

/-- A frame whose temperature pair is in the red zone. -/
def frameColdST7 : Frame :=
  ⟨"ST-7", "2025/03/01 10:00:00", [⟨some "T12", .num (-3)⟩]⟩

/-- A frame duplicating the T12 code (last write must win) and carrying T11. -/
def frameDupCode : Frame :=
  ⟨"ST-7", "2025/03/01 10:00:00",
   [⟨some "T12", .num 1⟩, ⟨some "T12", .num 2⟩, ⟨some "T11", .num 7⟩]⟩

/-- The sensor_data dict the decode loop builds from frameDupCode. -/
def sdDupCode : SensorMap := fun a =>
  if a = some "T11" then some 7
  else if a = some "T12" then some 2
  else if a = some "T12" then some 1
  else none

/-- A frame with one unconvertible sensor value next to a well-formed pair. -/
def frameBadValue : Frame :=
  ⟨"ST-7", "", [⟨some "T12", .malformed⟩, ⟨some "T11", .num 5⟩]⟩

/-- Reading fixture with the five alarm-relevant quantities chosen freely and
every other quantity zero. -/
def mkFixtureReading (t sp dp batt sg : Rat) : DeviceReading :=
  ⟨1, "ST-7", t, sp, dp, 0, 0, 0, 0, batt, 0, 0, 0, 0, 0, 0, sg, 0⟩

/-- All five monitored quantities below their low bounds. -/
def rLow : DeviceReading := mkFixtureReading (-1) 5 (-2) 9 (mkRat 1 2)

/-- All five monitored quantities above their high bounds. -/
def rHigh : DeviceReading := mkFixtureReading 125 150 450 15 (mkRat 7 10)

/-- All five monitored quantities inside their green zones. -/
def rGreen : DeviceReading := mkFixtureReading 50 50 100 12 (mkRat 3 5)

/-- A stored device row for station ST-7. -/
def devST7 : Device := ⟨1, "ST-7", "Device ST-7", "SMS", "Unknown", 0, 0, true, some 5⟩

/-- A stored reading for ST-7 at the event time encoded in frameST7. -/
def rdST7 : DeviceReading := buildReading 1 "ST-7" (fun _ => none) 65090512800

/-- A store already holding devST7 and rdST7. -/
def dbWithReading : DB := ⟨[devST7], [rdST7], [], 2⟩

/- ------------------------------------------------------------------
   Infrastructure lemmas
   ------------------------------------------------------------------ -/

theorem find?_append_none {α : Type} {p : α → Bool} {l₁ l₂ : List α}
    (h : l₁.find? p = none) : (l₁ ++ l₂).find? p = l₂.find? p := by
  induction l₁ with
  | nil => rfl
  | cons a l ih =>
    rw [List.find?_cons] at h
    rcases hp : p a with _ | _
    · rw [List.cons_append, List.find?_cons, hp]
      exact ih (by simpa [hp] using h)
    · simp [hp] at h

theorem MQTTService.resolveDevice_readings (db : DB) (cid : String) :
    (MQTTService.resolveDevice db cid).1.readings = db.readings := by
  unfold MQTTService.resolveDevice
  cases h : findDevice db cid <;> simp

theorem MQTTService.resolveDevice_alarms (db : DB) (cid : String) :
    (MQTTService.resolveDevice db cid).1.alarms = db.alarms := by
  unfold MQTTService.resolveDevice
  cases h : findDevice db cid <;> simp

theorem StandaloneMQTTListener.listener_resolveDevice_readings (db : DB) (cid : String) :
    (StandaloneMQTTListener.resolveDevice db cid).1.readings = db.readings := by
  unfold StandaloneMQTTListener.resolveDevice
  cases h : findDevice db cid <;> simp

theorem StandaloneMQTTListener.listener_resolveDevice_alarms (db : DB) (cid : String) :
    (StandaloneMQTTListener.resolveDevice db cid).1.alarms = db.alarms := by
  unfold StandaloneMQTTListener.resolveDevice
  cases h : findDevice db cid <;> simp

/-- Find-or-create returns a device whose identifier is the requested one. -/
theorem MQTTService.resolveDevice_client_id (db : DB) (cid : String) :
    (MQTTService.resolveDevice db cid).2.client_id = cid := by
  unfold MQTTService.resolveDevice
  cases h : findDevice db cid with
  | none => simp
  | some d =>
    have := List.find?_some h
    simpa using (by simpa using this : d.client_id = cid)

theorem StandaloneMQTTListener.listener_resolveDevice_client_id (db : DB) (cid : String) :
    (StandaloneMQTTListener.resolveDevice db cid).2.client_id = cid := by
  unfold StandaloneMQTTListener.resolveDevice
  cases h : findDevice db cid with
  | none => simp
  | some d =>
    have := List.find?_some h
    simpa using (by simpa using this : d.client_id = cid)

/-- The devices after find-or-create: unchanged, or with exactly the new
initially-active row appended. -/
theorem MQTTService.resolveDevice_devices (db : DB) (cid : String) :
    (MQTTService.resolveDevice db cid).1.devices = db.devices
      ∨ ((MQTTService.resolveDevice db cid).1.devices
          = db.devices ++ [(MQTTService.resolveDevice db cid).2]
         ∧ (MQTTService.resolveDevice db cid).2.is_active = true) := by
  unfold MQTTService.resolveDevice
  cases h : findDevice db cid <;> simp

theorem StandaloneMQTTListener.listener_resolveDevice_devices (db : DB) (cid : String) :
    (StandaloneMQTTListener.resolveDevice db cid).1.devices = db.devices
      ∨ ((StandaloneMQTTListener.resolveDevice db cid).1.devices
          = db.devices ++ [(StandaloneMQTTListener.resolveDevice db cid).2]
         ∧ (StandaloneMQTTListener.resolveDevice db cid).2.is_active = true) := by
  unfold StandaloneMQTTListener.resolveDevice
  cases h : findDevice db cid <;> simp

/-- After find-or-create, looking the identifier up finds the returned row. -/
theorem StandaloneMQTTListener.resolveDevice_find (db : DB) (cid : String) :
    findDevice (StandaloneMQTTListener.resolveDevice db cid).1 cid
      = some (StandaloneMQTTListener.resolveDevice db cid).2 := by
  unfold StandaloneMQTTListener.resolveDevice
  cases h : findDevice db cid with
  | some d => simpa using h
  | none =>
    simp only
    unfold findDevice at h ⊢
    simp only [find?_append_none h, List.find?_cons]
    simp

/-- commitFrame appends exactly the one new reading row. -/
theorem commitFrame_readings (db : DB) (cid : String) (arrival : Int)
    (reading : DeviceReading) (alarms_created : List Alarm) :
    (commitFrame db cid arrival reading alarms_created).readings
      = db.readings ++ [reading] := rfl

/-- commitFrame appends exactly the created alarm rows. -/
theorem commitFrame_alarms (db : DB) (cid : String) (arrival : Int)
    (reading : DeviceReading) (alarms_created : List Alarm) :
    (commitFrame db cid arrival reading alarms_created).alarms
      = db.alarms ++ alarms_created := rfl

/-- find? over a device-list map that preserves identifiers. -/
theorem findDevice_map_update (l : List Device) (cid : String) (g : Device → Device)
    (hg : ∀ d, (g d).client_id = d.client_id) :
    (l.map g).find? (fun d => d.client_id == cid)
      = (l.find? (fun d => d.client_id == cid)).map g := by
  induction l with
  | nil => rfl
  | cons d l ih =>
    simp only [List.map_cons, List.find?_cons, hg]
    cases hb : d.client_id == cid <;> simp [hb, ih]

/-- Looking a device up after the frame commit: the commit rewrites exactly
the rows carrying the frame's identifier to be active with fresh last_seen. -/
theorem findDevice_commitFrame (db : DB) (cid : String) (arrival : Int)
    (reading : DeviceReading) (alarms_created : List Alarm) :
    findDevice (commitFrame db cid arrival reading alarms_created) cid
      = (findDevice db cid).map
          (fun d => { d with last_seen := some arrival, is_active := true }) := by
  unfold findDevice commitFrame
  simp only
  rw [findDevice_map_update _ _ _
    (fun d => by by_cases h : (d.client_id == cid) = true <;> simp [h])]
  cases h : List.find? (fun d => d.client_id == cid) db.devices with
  | none => rfl
  | some d =>
    have hp : d.client_id = cid := by simpa using List.find?_some h
    simp [hp]

/-- A false dedup gate means no stored reading carries the key. -/
theorem MQTTService.hasDuplicate_false {db : DB} {cid : String} {ts : Int}
    (h : MQTTService.hasDuplicate db cid ts = false) :
    ∀ r ∈ db.readings, ¬(r.client_id = cid ∧ r.timestamp = ts) := by
  intro r hr hk
  unfold MQTTService.hasDuplicate at h
  rw [List.any_eq_false] at h
  exact h r hr (by simp [hk.1, hk.2])

theorem StandaloneMQTTListener.listener_hasDuplicate_false {db : DB} {did : Nat} {ts : Int}
    (h : StandaloneMQTTListener.hasDuplicate db did ts = false) :
    ∀ r ∈ db.readings, ¬(r.device_id = did ∧ r.timestamp = ts) := by
  intro r hr hk
  unfold StandaloneMQTTListener.hasDuplicate at h
  rw [List.any_eq_false] at h
  exact h r hr (by simp [hk.1, hk.2])

/-- The dedup gate only reads the readings table, which find-or-create of the
device row does not touch. -/
theorem MQTTService.hasDuplicate_resolveDevice (db : DB) (cid cid' : String)
    (ts : Int) :
    MQTTService.hasDuplicate (MQTTService.resolveDevice db cid').1 cid ts
      = MQTTService.hasDuplicate db cid ts := by
  unfold MQTTService.hasDuplicate
  rw [MQTTService.resolveDevice_readings]

theorem StandaloneMQTTListener.listener_hasDuplicate_resolveDevice (db : DB)
    (cid' : String) (did : Nat) (ts : Int) :
    StandaloneMQTTListener.hasDuplicate
        (StandaloneMQTTListener.resolveDevice db cid').1 did ts
      = StandaloneMQTTListener.hasDuplicate db did ts := by
  unfold StandaloneMQTTListener.hasDuplicate
  rw [StandaloneMQTTListener.listener_resolveDevice_readings]

/-- The sensor_data dict built by the decode loop holds, at every key, the
value of the LAST pair of the frame carrying that key (dict assignment
overwrites), falling back to the initial dict. -/
theorem buildSensorData_lookup :
    ∀ (items : List SensorItem) (m sd : SensorMap),
      buildSensorData items m = some sd →
      ∀ a, sd a = (match lastItem a items with
                   | some it => it.addrv.toFloat
                   | none => m a) := by
  intro items
  induction items with
  | nil =>
    intro m sd h a
    simp only [buildSensorData, Option.some.injEq] at h
    subst h
    rfl
  | cons item rest ih =>
    intro m sd h a
    unfold buildSensorData at h
    cases hv : item.addrv.toFloat with
    | none => rw [hv] at h; exact absurd h (by simp)
    | some v =>
      rw [hv] at h
      have hx := ih _ _ h a
      unfold lastItem
      cases hl : lastItem a rest with
      | some it => rw [hl] at hx; simpa using hx
      | none =>
        rw [hl] at hx
        by_cases ha : item.addr = a
        · subst ha
          simp at hx ⊢
          rw [hx, hv]
        · have ha' : ¬(a = item.addr) := fun hh => ha hh.symm
          simp only [if_neg ha, if_neg ha'] at hx ⊢
          exact hx

/-- The decode loop raises (float() ValueError) exactly when some pair of the
frame carries an unconvertible value. -/
theorem buildSensorData_eq_none :
    ∀ (items : List SensorItem) (m : SensorMap),
      buildSensorData items m = none ↔ ∃ it ∈ items, it.addrv.toFloat = none := by
  intro items
  induction items with
  | nil => intro m; simp [buildSensorData]
  | cons item rest ih =>
    intro m
    unfold buildSensorData
    cases hv : item.addrv.toFloat with
    | none => simp [hv]
    | some v => simp [hv, ih]

/- ------------------------------------------------------------------
   Path lemmas for MQTTService.process_device_data
   ------------------------------------------------------------------ -/

/-- Missing device identifier: the frame is skipped with no side effect. -/
theorem MQTTService.process_empty_id (db : DB) (f : Frame) (arrival : Int)
    (af : Bool) (hcid : pyStrip f.did = "") :
    MQTTService.process_device_data db f arrival af = (db, none) := by
  unfold MQTTService.process_device_data
  simp [hcid]

/-- An unconvertible sensor value aborts the frame: only the (already
committed) device creation survives, the transaction is rolled back. -/
theorem MQTTService.process_malformed (db : DB) (f : Frame) (arrival : Int)
    (af : Bool) (hcid : ¬(pyStrip f.did = ""))
    (h : buildSensorData f.content (fun _ => none) = none) :
    MQTTService.process_device_data db f arrival af
      = ((MQTTService.resolveDevice db (pyStrip f.did)).1, none) := by
  unfold MQTTService.process_device_data
  simp [hcid, h]

/-- A duplicate (client_id, event timestamp) key: the frame is discarded with
no write and no broadcast. -/
theorem MQTTService.process_duplicate (db : DB) (f : Frame) (arrival : Int)
    (af : Bool) (hcid : ¬(pyStrip f.did = "")) (sd : SensorMap)
    (hsd : buildSensorData f.content (fun _ => none) = some sd)
    (hdup : MQTTService.hasDuplicate db (pyStrip f.did)
        (MQTTService.deviceTimestamp f arrival) = true) :
    MQTTService.process_device_data db f arrival af
      = ((MQTTService.resolveDevice db (pyStrip f.did)).1, none) := by
  unfold MQTTService.process_device_data
  simp [hcid, hsd, MQTTService.hasDuplicate_resolveDevice, hdup]

/-- Accepted frame, no injected fault: the device update, the mapped reading
and the created alarms are committed together and the broadcast is emitted. -/
theorem MQTTService.process_accept (db : DB) (f : Frame) (arrival : Int)
    (hcid : ¬(pyStrip f.did = "")) (sd : SensorMap)
    (hsd : buildSensorData f.content (fun _ => none) = some sd)
    (hdup : MQTTService.hasDuplicate db (pyStrip f.did)
        (MQTTService.deviceTimestamp f arrival) = false) :
    MQTTService.process_device_data db f arrival false
      = (commitFrame (MQTTService.resolveDevice db (pyStrip f.did)).1
           (pyStrip f.did) arrival
           (buildReading (MQTTService.resolveDevice db (pyStrip f.did)).2.id
             (pyStrip f.did) sd (MQTTService.deviceTimestamp f arrival))
           (MQTTService.check_alarms
             (MQTTService.resolveDevice db (pyStrip f.did)).2.id (pyStrip f.did)
             (buildReading (MQTTService.resolveDevice db (pyStrip f.did)).2.id
               (pyStrip f.did) sd (MQTTService.deviceTimestamp f arrival))),
         some (mkBroadcastOut (pyStrip f.did)
           (MQTTService.resolveDevice db (pyStrip f.did)).2.id
           (buildReading (MQTTService.resolveDevice db (pyStrip f.did)).2.id
             (pyStrip f.did) sd (MQTTService.deviceTimestamp f arrival))
           (MQTTService.check_alarms
             (MQTTService.resolveDevice db (pyStrip f.did)).2.id (pyStrip f.did)
             (buildReading (MQTTService.resolveDevice db (pyStrip f.did)).2.id
               (pyStrip f.did) sd (MQTTService.deviceTimestamp f arrival))))) := by
  unfold MQTTService.process_device_data
  simp [hcid, hsd, MQTTService.hasDuplicate_resolveDevice, hdup]

/-- Accepted frame with an injected alarm-persistence fault while alarms are
being created: the whole transaction rolls back, reading included. -/
theorem MQTTService.process_alarm_rollback (db : DB) (f : Frame) (arrival : Int)
    (hcid : ¬(pyStrip f.did = "")) (sd : SensorMap)
    (hsd : buildSensorData f.content (fun _ => none) = some sd)
    (hdup : MQTTService.hasDuplicate db (pyStrip f.did)
        (MQTTService.deviceTimestamp f arrival) = false)
    (halarms : MQTTService.check_alarms
        (MQTTService.resolveDevice db (pyStrip f.did)).2.id (pyStrip f.did)
        (buildReading (MQTTService.resolveDevice db (pyStrip f.did)).2.id
          (pyStrip f.did) sd (MQTTService.deviceTimestamp f arrival)) ≠ []) :
    MQTTService.process_device_data db f arrival true
      = ((MQTTService.resolveDevice db (pyStrip f.did)).1, none) := by
  unfold MQTTService.process_device_data
  simp [hcid, hsd, MQTTService.hasDuplicate_resolveDevice, hdup,
    List.isEmpty_iff, halarms]

/- ------------------------------------------------------------------
   Path lemmas for StandaloneMQTTListener.process_device_data
   ------------------------------------------------------------------ -/

theorem StandaloneMQTTListener.listener_process_empty_id (db : DB) (f : Frame)
    (arrival : Int) (mon af : Bool) (hcid : pyStrip f.did = "") :
    StandaloneMQTTListener.process_device_data db f arrival mon af = db := by
  unfold StandaloneMQTTListener.process_device_data
  simp [hcid]

theorem StandaloneMQTTListener.listener_process_malformed (db : DB) (f : Frame)
    (arrival : Int) (mon af : Bool) (hcid : ¬(pyStrip f.did = ""))
    (h : buildSensorData f.content (fun _ => none) = none) :
    StandaloneMQTTListener.process_device_data db f arrival mon af
      = (StandaloneMQTTListener.resolveDevice db (pyStrip f.did)).1 := by
  unfold StandaloneMQTTListener.process_device_data
  simp [hcid, h]

theorem StandaloneMQTTListener.listener_process_duplicate (db : DB) (f : Frame)
    (arrival : Int) (mon af : Bool) (hcid : ¬(pyStrip f.did = ""))
    (sd : SensorMap)
    (hsd : buildSensorData f.content (fun _ => none) = some sd)
    (hdup : StandaloneMQTTListener.hasDuplicate db
        (StandaloneMQTTListener.resolveDevice db (pyStrip f.did)).2.id arrival
        = true) :
    StandaloneMQTTListener.process_device_data db f arrival mon af
      = (StandaloneMQTTListener.resolveDevice db (pyStrip f.did)).1 := by
  unfold StandaloneMQTTListener.process_device_data
  simp [hcid, hsd, StandaloneMQTTListener.listener_hasDuplicate_resolveDevice, hdup]

theorem StandaloneMQTTListener.listener_process_accept (db : DB) (f : Frame)
    (arrival : Int) (mon : Bool) (hcid : ¬(pyStrip f.did = ""))
    (sd : SensorMap)
    (hsd : buildSensorData f.content (fun _ => none) = some sd)
    (hdup : StandaloneMQTTListener.hasDuplicate db
        (StandaloneMQTTListener.resolveDevice db (pyStrip f.did)).2.id arrival
        = false) :
    StandaloneMQTTListener.process_device_data db f arrival mon false
      = commitFrame (StandaloneMQTTListener.resolveDevice db (pyStrip f.did)).1
          (pyStrip f.did) arrival
          (buildReading
            (StandaloneMQTTListener.resolveDevice db (pyStrip f.did)).2.id
            (pyStrip f.did) sd arrival)
          (if mon then
            StandaloneMQTTListener.check_alarms
              (StandaloneMQTTListener.resolveDevice db (pyStrip f.did)).2.id
              (pyStrip f.did)
              (buildReading
                (StandaloneMQTTListener.resolveDevice db (pyStrip f.did)).2.id
                (pyStrip f.did) sd arrival)
          else []) := by
  unfold StandaloneMQTTListener.process_device_data
  simp [hcid, hsd, StandaloneMQTTListener.listener_hasDuplicate_resolveDevice, hdup]

/- ------------------------------------------------------------------
   Threshold engine lemmas
   ------------------------------------------------------------------ -/

theorem alarmsFor_append (p : String) (l₁ l₂ : List Alarm) :
    alarmsFor p (l₁ ++ l₂) = alarmsFor p l₁ ++ alarmsFor p l₂ := by
  unfold alarmsFor
  exact List.filter_append _ _

theorem alarmsFor_of_param_eq {n : String} {l : List Alarm}
    (h : ∀ a ∈ l, a.parameter = n) : alarmsFor n l = l := by
  unfold alarmsFor
  rw [List.filter_eq_self]
  intro a ha
  simp [h a ha]

theorem alarmsFor_of_param_ne {n p : String} {l : List Alarm}
    (h : ∀ a ∈ l, a.parameter = n) (hne : ¬(n = p)) : alarmsFor p l = [] := by
  unfold alarmsFor
  rw [List.filter_eq_nil_iff]
  intro a ha
  simp [h a ha, hne]

theorem mem_alarmsFor_self {a : Alarm} {l : List Alarm} (ha : a ∈ l) :
    a ∈ alarmsFor a.parameter l :=
  List.mem_filter.2 ⟨ha, by simp⟩

theorem mem_alarmsFor_of_param {a : Alarm} {p : String} {l : List Alarm}
    (ha : a ∈ l) (hp : a.parameter = p) : a ∈ alarmsFor p l :=
  List.mem_filter.2 ⟨ha, by simp [hp]⟩

theorem temperature_alarms_param (did : Nat) (cid : String) (r : DeviceReading) :
    ∀ a ∈ temperature_alarms did cid r, a.parameter = "temperature" := by
  intro a ha
  unfold temperature_alarms MQTTService.create_alarm at ha
  split_ifs at ha <;> simp_all

theorem static_pressure_alarms_param (did : Nat) (cid : String)
    (r : DeviceReading) :
    ∀ a ∈ static_pressure_alarms did cid r, a.parameter = "static_pressure" := by
  intro a ha
  unfold static_pressure_alarms MQTTService.create_alarm at ha
  split_ifs at ha <;> simp_all

theorem differential_pressure_alarms_param (did : Nat) (cid : String)
    (r : DeviceReading) :
    ∀ a ∈ differential_pressure_alarms did cid r,
      a.parameter = "differential_pressure" := by
  intro a ha
  unfold differential_pressure_alarms MQTTService.create_alarm at ha
  split_ifs at ha <;> simp_all

theorem battery_alarms_param (did : Nat) (cid : String) (r : DeviceReading) :
    ∀ a ∈ battery_alarms did cid r, a.parameter = "battery" := by
  intro a ha
  unfold battery_alarms MQTTService.create_alarm at ha
  split_ifs at ha <;> simp_all

theorem specific_gravity_alarms_param (did : Nat) (cid : String)
    (r : DeviceReading) :
    ∀ a ∈ specific_gravity_alarms did cid r,
      a.parameter = "specific_gravity" := by
  intro a ha
  unfold specific_gravity_alarms MQTTService.create_alarm at ha
  split_ifs at ha <;> simp_all

/-- Within one parameter block, a low-threshold and a high-threshold alarm can
never coexist (the source blocks are if/elif: at most one arm is taken). -/
theorem temperature_alarms_lowhigh {did : Nat} {cid : String} {r : DeviceReading}
    {a b : Alarm} (ha : a ∈ temperature_alarms did cid r)
    (hb : b ∈ temperature_alarms did cid r)
    (hl : a.threshold_type = "low") (hh : b.threshold_type = "high") : False := by
  unfold temperature_alarms MQTTService.create_alarm at ha hb
  split_ifs at ha hb <;> simp_all

theorem static_pressure_alarms_lowhigh {did : Nat} {cid : String}
    {r : DeviceReading} {a b : Alarm}
    (ha : a ∈ static_pressure_alarms did cid r)
    (hb : b ∈ static_pressure_alarms did cid r)
    (hl : a.threshold_type = "low") (hh : b.threshold_type = "high") : False := by
  unfold static_pressure_alarms MQTTService.create_alarm at ha hb
  split_ifs at ha hb <;> simp_all

theorem differential_pressure_alarms_lowhigh {did : Nat} {cid : String}
    {r : DeviceReading} {a b : Alarm}
    (ha : a ∈ differential_pressure_alarms did cid r)
    (hb : b ∈ differential_pressure_alarms did cid r)
    (hl : a.threshold_type = "low") (hh : b.threshold_type = "high") : False := by
  unfold differential_pressure_alarms MQTTService.create_alarm at ha hb
  split_ifs at ha hb <;> simp_all

theorem battery_alarms_lowhigh {did : Nat} {cid : String} {r : DeviceReading}
    {a b : Alarm} (ha : a ∈ battery_alarms did cid r)
    (hb : b ∈ battery_alarms did cid r)
    (hl : a.threshold_type = "low") (hh : b.threshold_type = "high") : False := by
  unfold battery_alarms MQTTService.create_alarm at ha hb
  split_ifs at ha hb <;> simp_all

theorem specific_gravity_alarms_lowhigh {did : Nat} {cid : String}
    {r : DeviceReading} {a b : Alarm}
    (ha : a ∈ specific_gravity_alarms did cid r)
    (hb : b ∈ specific_gravity_alarms did cid r)
    (hl : a.threshold_type = "low") (hh : b.threshold_type = "high") : False := by
  unfold specific_gravity_alarms MQTTService.create_alarm at ha hb
  split_ifs at ha hb <;> simp_all

/-- Per-parameter projection of the in-app engine output. -/
theorem alarmsFor_svc_temperature (did : Nat) (cid : String) (r : DeviceReading) :
    alarmsFor "temperature" (MQTTService.check_alarms did cid r)
      = temperature_alarms did cid r := by
  simp [MQTTService.check_alarms, alarmsFor_append,
    alarmsFor_of_param_eq (temperature_alarms_param did cid r),
    alarmsFor_of_param_ne (p := "temperature") (static_pressure_alarms_param did cid r) (by decide),
    alarmsFor_of_param_ne (p := "temperature") (differential_pressure_alarms_param did cid r) (by decide),
    alarmsFor_of_param_ne (p := "temperature") (battery_alarms_param did cid r) (by decide)]

theorem alarmsFor_svc_static_pressure (did : Nat) (cid : String)
    (r : DeviceReading) :
    alarmsFor "static_pressure" (MQTTService.check_alarms did cid r)
      = static_pressure_alarms did cid r := by
  simp [MQTTService.check_alarms, alarmsFor_append,
    alarmsFor_of_param_eq (static_pressure_alarms_param did cid r),
    alarmsFor_of_param_ne (p := "static_pressure") (temperature_alarms_param did cid r) (by decide),
    alarmsFor_of_param_ne (p := "static_pressure") (differential_pressure_alarms_param did cid r) (by decide),
    alarmsFor_of_param_ne (p := "static_pressure") (battery_alarms_param did cid r) (by decide)]

theorem alarmsFor_svc_differential_pressure (did : Nat) (cid : String)
    (r : DeviceReading) :
    alarmsFor "differential_pressure" (MQTTService.check_alarms did cid r)
      = differential_pressure_alarms did cid r := by
  simp [MQTTService.check_alarms, alarmsFor_append,
    alarmsFor_of_param_eq (differential_pressure_alarms_param did cid r),
    alarmsFor_of_param_ne (p := "differential_pressure") (temperature_alarms_param did cid r) (by decide),
    alarmsFor_of_param_ne (p := "differential_pressure") (static_pressure_alarms_param did cid r) (by decide),
    alarmsFor_of_param_ne (p := "differential_pressure") (battery_alarms_param did cid r) (by decide)]

theorem alarmsFor_svc_battery (did : Nat) (cid : String) (r : DeviceReading) :
    alarmsFor "battery" (MQTTService.check_alarms did cid r)
      = battery_alarms did cid r := by
  simp [MQTTService.check_alarms, alarmsFor_append,
    alarmsFor_of_param_eq (battery_alarms_param did cid r),
    alarmsFor_of_param_ne (p := "battery") (temperature_alarms_param did cid r) (by decide),
    alarmsFor_of_param_ne (p := "battery") (static_pressure_alarms_param did cid r) (by decide),
    alarmsFor_of_param_ne (p := "battery") (differential_pressure_alarms_param did cid r) (by decide)]

/-- The in-app engine never emits a specific-gravity alarm: none of its four
blocks carries that parameter name. -/
theorem alarmsFor_svc_specific_gravity (did : Nat) (cid : String)
    (r : DeviceReading) :
    alarmsFor "specific_gravity" (MQTTService.check_alarms did cid r) = [] := by
  simp [MQTTService.check_alarms, alarmsFor_append,
    alarmsFor_of_param_ne (p := "specific_gravity") (temperature_alarms_param did cid r) (by decide),
    alarmsFor_of_param_ne (p := "specific_gravity") (static_pressure_alarms_param did cid r) (by decide),
    alarmsFor_of_param_ne (p := "specific_gravity") (differential_pressure_alarms_param did cid r) (by decide),
    alarmsFor_of_param_ne (p := "specific_gravity") (battery_alarms_param did cid r) (by decide)]

/-- Per-parameter projection of the standalone engine output. -/
theorem alarmsFor_lst_temperature (did : Nat) (cid : String) (r : DeviceReading) :
    alarmsFor "temperature" (StandaloneMQTTListener.check_alarms did cid r)
      = temperature_alarms did cid r := by
  simp [StandaloneMQTTListener.check_alarms, alarmsFor_append,
    alarmsFor_of_param_eq (temperature_alarms_param did cid r),
    alarmsFor_of_param_ne (p := "temperature") (static_pressure_alarms_param did cid r) (by decide),
    alarmsFor_of_param_ne (p := "temperature") (differential_pressure_alarms_param did cid r) (by decide),
    alarmsFor_of_param_ne (p := "temperature") (battery_alarms_param did cid r) (by decide),
    alarmsFor_of_param_ne (p := "temperature") (specific_gravity_alarms_param did cid r) (by decide)]

theorem alarmsFor_lst_static_pressure (did : Nat) (cid : String)
    (r : DeviceReading) :
    alarmsFor "static_pressure" (StandaloneMQTTListener.check_alarms did cid r)
      = static_pressure_alarms did cid r := by
  simp [StandaloneMQTTListener.check_alarms, alarmsFor_append,
    alarmsFor_of_param_eq (static_pressure_alarms_param did cid r),
    alarmsFor_of_param_ne (p := "static_pressure") (temperature_alarms_param did cid r) (by decide),
    alarmsFor_of_param_ne (p := "static_pressure") (differential_pressure_alarms_param did cid r) (by decide),
    alarmsFor_of_param_ne (p := "static_pressure") (battery_alarms_param did cid r) (by decide),
    alarmsFor_of_param_ne (p := "static_pressure") (specific_gravity_alarms_param did cid r) (by decide)]

theorem alarmsFor_lst_differential_pressure (did : Nat) (cid : String)
    (r : DeviceReading) :
    alarmsFor "differential_pressure"
        (StandaloneMQTTListener.check_alarms did cid r)
      = differential_pressure_alarms did cid r := by
  simp [StandaloneMQTTListener.check_alarms, alarmsFor_append,
    alarmsFor_of_param_eq (differential_pressure_alarms_param did cid r),
    alarmsFor_of_param_ne (p := "differential_pressure") (temperature_alarms_param did cid r) (by decide),
    alarmsFor_of_param_ne (p := "differential_pressure") (static_pressure_alarms_param did cid r) (by decide),
    alarmsFor_of_param_ne (p := "differential_pressure") (battery_alarms_param did cid r) (by decide),
    alarmsFor_of_param_ne (p := "differential_pressure") (specific_gravity_alarms_param did cid r) (by decide)]

theorem alarmsFor_lst_battery (did : Nat) (cid : String) (r : DeviceReading) :
    alarmsFor "battery" (StandaloneMQTTListener.check_alarms did cid r)
      = battery_alarms did cid r := by
  simp [StandaloneMQTTListener.check_alarms, alarmsFor_append,
    alarmsFor_of_param_eq (battery_alarms_param did cid r),
    alarmsFor_of_param_ne (p := "battery") (temperature_alarms_param did cid r) (by decide),
    alarmsFor_of_param_ne (p := "battery") (static_pressure_alarms_param did cid r) (by decide),
    alarmsFor_of_param_ne (p := "battery") (differential_pressure_alarms_param did cid r) (by decide),
    alarmsFor_of_param_ne (p := "battery") (specific_gravity_alarms_param did cid r) (by decide)]

theorem alarmsFor_lst_specific_gravity (did : Nat) (cid : String)
    (r : DeviceReading) :
    alarmsFor "specific_gravity" (StandaloneMQTTListener.check_alarms did cid r)
      = specific_gravity_alarms did cid r := by
  simp [StandaloneMQTTListener.check_alarms, alarmsFor_append,
    alarmsFor_of_param_eq (specific_gravity_alarms_param did cid r),
    alarmsFor_of_param_ne (p := "specific_gravity") (temperature_alarms_param did cid r) (by decide),
    alarmsFor_of_param_ne (p := "specific_gravity") (static_pressure_alarms_param did cid r) (by decide),
    alarmsFor_of_param_ne (p := "specific_gravity") (differential_pressure_alarms_param did cid r) (by decide),
    alarmsFor_of_param_ne (p := "specific_gravity") (battery_alarms_param did cid r) (by decide)]

/-- Red-zone arm of the temperature block. -/
theorem temperature_alarms_low (did : Nat) (cid : String) (r : DeviceReading)
    (h : r.temperature < 0) :
    temperature_alarms did cid r
      = [⟨did, cid, "temperature", r.temperature, "low", "high", false⟩] := by
  unfold temperature_alarms MQTTService.create_alarm
  rw [if_pos h]

/-- Yellow-zone arm of the temperature block (elif: only when the red arm was
not taken, which h forces). -/
theorem temperature_alarms_high (did : Nat) (cid : String) (r : DeviceReading)
    (h : r.temperature > 120) :
    temperature_alarms did cid r
      = [⟨did, cid, "temperature", r.temperature, "high", "medium", false⟩] := by
  unfold temperature_alarms MQTTService.create_alarm
  rw [if_neg (by linarith), if_pos h]

/-- Interior zones of the temperature block raise nothing; both knife-edges
are excluded from the alarm arms. -/
theorem temperature_alarms_none (did : Nat) (cid : String) (r : DeviceReading)
    (h1 : 0 ≤ r.temperature) (h2 : r.temperature ≤ 120) :
    temperature_alarms did cid r = [] := by
  unfold temperature_alarms
  rw [if_neg (not_lt.2 h1), if_neg (not_lt.2 h2)]

theorem static_pressure_alarms_low (did : Nat) (cid : String) (r : DeviceReading)
    (h : r.static_pressure < 10) :
    static_pressure_alarms did cid r
      = [⟨did, cid, "static_pressure", r.static_pressure, "low", "medium", false⟩] := by
  unfold static_pressure_alarms MQTTService.create_alarm
  rw [if_pos h]

theorem static_pressure_alarms_high (did : Nat) (cid : String) (r : DeviceReading)
    (h : r.static_pressure > 140) :
    static_pressure_alarms did cid r
      = [⟨did, cid, "static_pressure", r.static_pressure, "high", "high", false⟩] := by
  unfold static_pressure_alarms MQTTService.create_alarm
  rw [if_neg (by linarith), if_pos h]

theorem static_pressure_alarms_none (did : Nat) (cid : String) (r : DeviceReading)
    (h1 : 10 ≤ r.static_pressure) (h2 : r.static_pressure ≤ 140) :
    static_pressure_alarms did cid r = [] := by
  unfold static_pressure_alarms
  rw [if_neg (not_lt.2 h1), if_neg (not_lt.2 h2)]

theorem differential_pressure_alarms_low (did : Nat) (cid : String)
    (r : DeviceReading) (h : r.differential_pressure < 0) :
    differential_pressure_alarms did cid r
      = [⟨did, cid, "differential_pressure", r.differential_pressure,
          "low", "medium", false⟩] := by
  unfold differential_pressure_alarms MQTTService.create_alarm
  rw [if_pos h]

theorem differential_pressure_alarms_high (did : Nat) (cid : String)
    (r : DeviceReading) (h : r.differential_pressure > 400) :
    differential_pressure_alarms did cid r
      = [⟨did, cid, "differential_pressure", r.differential_pressure,
          "high", "high", false⟩] := by
  unfold differential_pressure_alarms MQTTService.create_alarm
  rw [if_neg (by linarith), if_pos h]

theorem differential_pressure_alarms_none (did : Nat) (cid : String)
    (r : DeviceReading) (h1 : 0 ≤ r.differential_pressure)
    (h2 : r.differential_pressure ≤ 400) :
    differential_pressure_alarms did cid r = [] := by
  unfold differential_pressure_alarms
  rw [if_neg (not_lt.2 h1), if_neg (not_lt.2 h2)]

theorem battery_alarms_low (did : Nat) (cid : String) (r : DeviceReading)
    (h : r.battery < 10) :
    battery_alarms did cid r
      = [⟨did, cid, "battery", r.battery, "low", "high", false⟩] := by
  unfold battery_alarms MQTTService.create_alarm
  rw [if_pos h]

theorem battery_alarms_high (did : Nat) (cid : String) (r : DeviceReading)
    (h : r.battery > 14) :
    battery_alarms did cid r
      = [⟨did, cid, "battery", r.battery, "high", "medium", false⟩] := by
  unfold battery_alarms MQTTService.create_alarm
  rw [if_neg (by linarith), if_pos h]

theorem battery_alarms_none (did : Nat) (cid : String) (r : DeviceReading)
    (h1 : 10 ≤ r.battery) (h2 : r.battery ≤ 14) :
    battery_alarms did cid r = [] := by
  unfold battery_alarms
  rw [if_neg (not_lt.2 h1), if_neg (not_lt.2 h2)]

theorem specific_gravity_alarms_low (did : Nat) (cid : String) (r : DeviceReading)
    (h : r.specific_gravity < mkRat 58 100) :
    specific_gravity_alarms did cid r
      = [⟨did, cid, "specific_gravity", r.specific_gravity, "low", "high", false⟩] := by
  unfold specific_gravity_alarms MQTTService.create_alarm
  rw [if_pos h]

theorem specific_gravity_alarms_high (did : Nat) (cid : String)
    (r : DeviceReading) (h : r.specific_gravity > mkRat 69 100) :
    specific_gravity_alarms did cid r
      = [⟨did, cid, "specific_gravity", r.specific_gravity, "high", "high", false⟩] := by
  unfold specific_gravity_alarms MQTTService.create_alarm
  have hlt : ¬(r.specific_gravity < mkRat 58 100) := by
    have : (mkRat 58 100 : Rat) < mkRat 69 100 := by decide
    push_neg
    linarith
  rw [if_neg hlt, if_pos h]

theorem specific_gravity_alarms_none (did : Nat) (cid : String)
    (r : DeviceReading) (h1 : mkRat 58 100 ≤ r.specific_gravity)
    (h2 : r.specific_gravity ≤ mkRat 69 100) :
    specific_gravity_alarms did cid r = [] := by
  unfold specific_gravity_alarms
  rw [if_neg (not_lt.2 h1), if_neg (not_lt.2 h2)]

/- ------------------------------------------------------------------
   Event-timestamp lemmas (mqtt_service.py lines 109-116)
   ------------------------------------------------------------------ -/

theorem MQTTService.deviceTimestamp_empty {f : Frame} (arrival : Int)
    (h : pyStrip f.utime = "") : MQTTService.deviceTimestamp f arrival = arrival := by
  unfold MQTTService.deviceTimestamp
  simp [h]

theorem MQTTService.deviceTimestamp_parse {f : Frame} (arrival : Int) {t : Int}
    (hne : ¬(pyStrip f.utime = ""))
    (hp : parseUtime (pyStrip f.utime) = some t) :
    MQTTService.deviceTimestamp f arrival = t := by
  unfold MQTTService.deviceTimestamp
  simp [hne, hp]

theorem MQTTService.deviceTimestamp_fail {f : Frame} (arrival : Int)
    (hp : parseUtime (pyStrip f.utime) = none) :
    MQTTService.deviceTimestamp f arrival = arrival := by
  unfold MQTTService.deviceTimestamp
  by_cases h : pyStrip f.utime = "" <;> simp [h, hp]

/- ------------------------------------------------------------------
   Broadcast loop lemma
   ------------------------------------------------------------------ -/

theorem broadcast_foldl (sendFails : Nat → Bool) :
    ∀ (conns : List Nat) (acc : List Nat × List Nat),
      conns.foldl
        (fun (acc : List Nat × List Nat) c =>
          if sendFails c then (acc.1, acc.2 ++ [c]) else (acc.1 ++ [c], acc.2))
        acc
      = (acc.1 ++ conns.filter (fun c => !(sendFails c)),
         acc.2 ++ conns.filter sendFails) := by
  intro conns
  induction conns with
  | nil => intro acc; simp
  | cons c rest ih =>
    intro acc
    simp only [List.foldl_cons]
    cases hc : sendFails c <;>
      simp [hc, ih, List.filter_cons]

/- ------------------------------------------------------------------
   Case analysis of the pipelines at the readings table
   ------------------------------------------------------------------ -/

/-- When the device row already exists, find-or-create is a pure read. -/
theorem MQTTService.resolveDevice_of_found {db : DB} {cid : String} {d : Device}
    (h : findDevice db cid = some d) :
    MQTTService.resolveDevice db cid = (db, d) := by
  unfold MQTTService.resolveDevice
  rw [h]

theorem StandaloneMQTTListener.listener_resolveDevice_of_found {db : DB} {cid : String}
    {d : Device} (h : findDevice db cid = some d) :
    StandaloneMQTTListener.resolveDevice db cid = (db, d) := by
  unfold StandaloneMQTTListener.resolveDevice
  rw [h]

/-- A stored reading carrying the key makes the dedup gate fire. -/
theorem MQTTService.hasDuplicate_of_mem {db : DB} {cid : String} {ts : Int}
    (r : DeviceReading) (hr : r ∈ db.readings) (h1 : r.client_id = cid)
    (h2 : r.timestamp = ts) : MQTTService.hasDuplicate db cid ts = true := by
  unfold MQTTService.hasDuplicate
  rw [List.any_eq_true]
  exact ⟨r, hr, by simp [h1, h2]⟩

/-- Any run of the in-app pipeline either leaves the readings table unchanged,
or appends exactly one reading whose key passed the dedup gate. -/
theorem MQTTService.process_readings_cases (db : DB) (f : Frame) (arrival : Int)
    (af : Bool) :
    (MQTTService.process_device_data db f arrival af).1.readings = db.readings
    ∨ ∃ sd, buildSensorData f.content (fun _ => none) = some sd
        ∧ MQTTService.hasDuplicate db (pyStrip f.did)
            (MQTTService.deviceTimestamp f arrival) = false
        ∧ (MQTTService.process_device_data db f arrival af).1.readings
            = db.readings
              ++ [buildReading (MQTTService.resolveDevice db (pyStrip f.did)).2.id
                    (pyStrip f.did) sd (MQTTService.deviceTimestamp f arrival)] := by
  by_cases hcid : pyStrip f.did = ""
  · left
    rw [MQTTService.process_empty_id db f arrival af hcid]
  · cases hsd : buildSensorData f.content (fun _ => none) with
    | none =>
      left
      rw [MQTTService.process_malformed db f arrival af hcid hsd,
        MQTTService.resolveDevice_readings]
    | some sd =>
      cases hdup : MQTTService.hasDuplicate db (pyStrip f.did)
          (MQTTService.deviceTimestamp f arrival) with
      | true =>
        left
        rw [MQTTService.process_duplicate db f arrival af hcid sd hsd hdup,
          MQTTService.resolveDevice_readings]
      | false =>
        by_cases hfail : (af && !((MQTTService.check_alarms
            (MQTTService.resolveDevice db (pyStrip f.did)).2.id (pyStrip f.did)
            (buildReading (MQTTService.resolveDevice db (pyStrip f.did)).2.id
              (pyStrip f.did) sd
              (MQTTService.deviceTimestamp f arrival))).isEmpty)) = true
        · left
          unfold MQTTService.process_device_data
          simp [hcid, hsd, MQTTService.hasDuplicate_resolveDevice, hdup, hfail,
            MQTTService.resolveDevice_readings]
        · right
          refine ⟨sd, rfl, rfl, ?_⟩
          unfold MQTTService.process_device_data
          simp only [Bool.not_eq_true] at hfail
          simp [hcid, hsd, MQTTService.hasDuplicate_resolveDevice, hdup, hfail,
            commitFrame, MQTTService.resolveDevice_readings]

/-- Same case analysis for the standalone pipeline, keyed on (device_id,
arrival instant). -/
theorem StandaloneMQTTListener.listener_process_readings_cases (db : DB) (f : Frame)
    (arrival : Int) (mon af : Bool) :
    (StandaloneMQTTListener.process_device_data db f arrival mon af).readings
        = db.readings
    ∨ ∃ sd, buildSensorData f.content (fun _ => none) = some sd
        ∧ StandaloneMQTTListener.hasDuplicate db
            (StandaloneMQTTListener.resolveDevice db (pyStrip f.did)).2.id arrival
            = false
        ∧ (StandaloneMQTTListener.process_device_data db f arrival mon af).readings
            = db.readings
              ++ [buildReading
                    (StandaloneMQTTListener.resolveDevice db (pyStrip f.did)).2.id
                    (pyStrip f.did) sd arrival] := by
  by_cases hcid : pyStrip f.did = ""
  · left
    rw [StandaloneMQTTListener.listener_process_empty_id db f arrival mon af hcid]
  · cases hsd : buildSensorData f.content (fun _ => none) with
    | none =>
      left
      rw [StandaloneMQTTListener.listener_process_malformed db f arrival mon af hcid hsd,
        StandaloneMQTTListener.listener_resolveDevice_readings]
    | some sd =>
      cases hdup : StandaloneMQTTListener.hasDuplicate db
          (StandaloneMQTTListener.resolveDevice db (pyStrip f.did)).2.id arrival with
      | true =>
        left
        rw [StandaloneMQTTListener.listener_process_duplicate db f arrival mon af hcid sd
          hsd hdup, StandaloneMQTTListener.listener_resolveDevice_readings]
      | false =>
        by_cases hfail : (af && !((if mon then
            StandaloneMQTTListener.check_alarms
              (StandaloneMQTTListener.resolveDevice db (pyStrip f.did)).2.id
              (pyStrip f.did)
              (buildReading
                (StandaloneMQTTListener.resolveDevice db (pyStrip f.did)).2.id
                (pyStrip f.did) sd arrival)
          else []).isEmpty)) = true
        · left
          unfold StandaloneMQTTListener.process_device_data
          simp [hcid, hsd, StandaloneMQTTListener.listener_hasDuplicate_resolveDevice,
            hdup, hfail, StandaloneMQTTListener.listener_resolveDevice_readings]
        · right
          refine ⟨sd, rfl, rfl, ?_⟩
          unfold StandaloneMQTTListener.process_device_data
          simp only [Bool.not_eq_true] at hfail
          simp [hcid, hsd, StandaloneMQTTListener.listener_hasDuplicate_resolveDevice,
            hdup, hfail, commitFrame,
            StandaloneMQTTListener.listener_resolveDevice_readings]

/- ------------------------------------------------------------------
   Offline sweep and liveness lemmas
   ------------------------------------------------------------------ -/

theorem isStale_iff (now : Int) (d : Device) :
    isStale now d = true
      ↔ (d.is_active = true
          ∧ ∃ t, d.last_seen = some t ∧ t < now - offlineStaleness) := by
  unfold isStale
  cases hl : d.last_seen with
  | none => simp [hl]
  | some t => simp [hl]

/-- Element-wise description of one sweep tick: identifiers and last-contact
never change, and a device stays active exactly when it was active and not
stale. -/
theorem check_offline_devices_forall2 (db : DB) (now : Int) :
    List.Forall₂ (fun d d' =>
        d'.client_id = d.client_id
        ∧ d'.last_seen = d.last_seen
        ∧ (d'.is_active = true
            ↔ (d.is_active = true
                ∧ ¬∃ t, d.last_seen = some t ∧ t < now - offlineStaleness)))
      db.devices
      (StandaloneMQTTListener.check_offline_devices db now).devices := by
  unfold StandaloneMQTTListener.check_offline_devices
  simp only
  induction db.devices with
  | nil => constructor
  | cons d l ih =>
    simp only [List.map_cons]
    refine List.Forall₂.cons ?_ ih
    by_cases hs : isStale now d = true
    · have hst := (isStale_iff now d).1 hs
      rw [if_pos hs]
      exact ⟨rfl, rfl, by simp [hst.1, hst.2]⟩
    · have hst := fun hx => hs ((isStale_iff now d).2 hx)
      rw [if_neg hs]
      refine ⟨rfl, rfl, ?_⟩
      constructor
      · intro hact
        exact ⟨hact, fun hex => hst ⟨hact, hex⟩⟩
      · intro h
        exact h.1

/-- The standalone pipeline never deactivates a device: every device row after
a frame is either an untouched pre-existing row or an active row. -/
theorem StandaloneMQTTListener.process_devices_superset (db : DB) (f : Frame)
    (arrival : Int) (mon : Bool) :
    ∀ d' ∈ (StandaloneMQTTListener.process_device_data db f arrival mon false).devices,
      d' ∈ db.devices ∨ d'.is_active = true := by
  intro d' hd'
  by_cases hcid : pyStrip f.did = ""
  · rw [StandaloneMQTTListener.listener_process_empty_id db f arrival mon false hcid] at hd'
    exact Or.inl hd'
  · have hres := StandaloneMQTTListener.listener_resolveDevice_devices db (pyStrip f.did)
    cases hsd : buildSensorData f.content (fun _ => none) with
    | none =>
      rw [StandaloneMQTTListener.listener_process_malformed db f arrival mon false hcid hsd]
        at hd'
      rcases hres with h | ⟨h, hact⟩
      · rw [h] at hd'
        exact Or.inl hd'
      · rw [h] at hd'
        rcases List.mem_append.1 hd' with h1 | h1
        · exact Or.inl h1
        · right
          rw [List.mem_singleton.1 h1]
          exact hact
    | some sd =>
      cases hdup : StandaloneMQTTListener.hasDuplicate db
          (StandaloneMQTTListener.resolveDevice db (pyStrip f.did)).2.id arrival with
      | true =>
        rw [StandaloneMQTTListener.listener_process_duplicate db f arrival mon false hcid
          sd hsd hdup] at hd'
        rcases hres with h | ⟨h, hact⟩
        · rw [h] at hd'
          exact Or.inl hd'
        · rw [h] at hd'
          rcases List.mem_append.1 hd' with h1 | h1
          · exact Or.inl h1
          · right
            rw [List.mem_singleton.1 h1]
            exact hact
      | false =>
        rw [StandaloneMQTTListener.listener_process_accept db f arrival mon hcid sd hsd
          hdup] at hd'
        unfold commitFrame at hd'
        simp only [List.mem_map] at hd'
        obtain ⟨d, hd, hupd⟩ := hd'
        by_cases hc : (d.client_id == pyStrip f.did) = true
        · rw [if_pos hc] at hupd
          right
          rw [← hupd]
        · rw [if_neg hc] at hupd
          subst hupd
          rcases hres with h | ⟨h, hact⟩
          · rw [h] at hd
            exact Or.inl hd
          · rw [h] at hd
            rcases List.mem_append.1 hd with h1 | h1
            · exact Or.inl h1
            · right
              rw [List.mem_singleton.1 h1]
              exact hact

/-- After an accepted frame, the frame's device row is active with last
contact equal to the arrival instant. -/
theorem StandaloneMQTTListener.process_find_after_accept (db : DB) (f : Frame)
    (arrival : Int) (mon : Bool) (hcid : ¬(pyStrip f.did = "")) (sd : SensorMap)
    (hsd : buildSensorData f.content (fun _ => none) = some sd)
    (hdup : StandaloneMQTTListener.hasDuplicate db
        (StandaloneMQTTListener.resolveDevice db (pyStrip f.did)).2.id arrival
        = false) :
    findDevice (StandaloneMQTTListener.process_device_data db f arrival mon false)
        (pyStrip f.did)
      = some { (StandaloneMQTTListener.resolveDevice db (pyStrip f.did)).2 with
                 last_seen := some arrival, is_active := true } := by
  rw [StandaloneMQTTListener.listener_process_accept db f arrival mon hcid sd hsd hdup,
    findDevice_commitFrame, StandaloneMQTTListener.resolveDevice_find]
  rfl

/- ------------------------------------------------------------------
   Claim theorems
   ------------------------------------------------------------------ -/

/-- C3 counterexample: the claim says a specific gravity below 0.58 produces
one high-severity low alarm, and cites MQTTService.check_alarms; but the
in-app engine has no specific-gravity block at all: a green reading with
specific gravity 1/2 < 0.58 produces no alarm whatsoever. -/
theorem C3_counterexample :
    MQTTService.check_alarms 1 "ST-7" (mkFixtureReading 50 50 100 12 (mkRat 1 2))
      = []
    ∧ (mkFixtureReading 50 50 100 12 (mkRat 1 2)).specific_gravity
        < mkRat 58 100 := by
  decide

/-- C3 amended: the specific-gravity rule (< 0.58 low / > 0.69 high, both of
severity high, boundaries silent) holds for the STANDALONE listener engine
only; the in-app service engine never emits a specific-gravity alarm. -/
theorem C3_specific_gravity_amended (did : Nat) (cid : String)
    (r : DeviceReading) :
    (r.specific_gravity < mkRat 58 100 →
      alarmsFor "specific_gravity" (StandaloneMQTTListener.check_alarms did cid r)
        = [⟨did, cid, "specific_gravity", r.specific_gravity, "low", "high", false⟩])
    ∧ (r.specific_gravity > mkRat 69 100 →
      alarmsFor "specific_gravity" (StandaloneMQTTListener.check_alarms did cid r)
        = [⟨did, cid, "specific_gravity", r.specific_gravity, "high", "high", false⟩])
    ∧ (mkRat 58 100 ≤ r.specific_gravity → r.specific_gravity ≤ mkRat 69 100 →
      alarmsFor "specific_gravity" (StandaloneMQTTListener.check_alarms did cid r)
        = [])
    ∧ alarmsFor "specific_gravity" (MQTTService.check_alarms did cid r) = [] := by
  refine ⟨?_, ?_, ?_, alarmsFor_svc_specific_gravity did cid r⟩
  · intro h
    rw [alarmsFor_lst_specific_gravity, specific_gravity_alarms_low did cid r h]
  · intro h
    rw [alarmsFor_lst_specific_gravity, specific_gravity_alarms_high did cid r h]
  · intro h1 h2
    rw [alarmsFor_lst_specific_gravity,
      specific_gravity_alarms_none did cid r h1 h2]

/-- Witness for C3 amended at concrete readings on both sides of 0.58 and in
the green band. -/
theorem C3_witness :
    alarmsFor "specific_gravity" (StandaloneMQTTListener.check_alarms 1 "ST-7" rLow)
      = [⟨1, "ST-7", "specific_gravity", mkRat 1 2, "low", "high", false⟩]
    ∧ alarmsFor "specific_gravity"
        (StandaloneMQTTListener.check_alarms 1 "ST-7" rGreen) = [] := by
  constructor
  · exact (C3_specific_gravity_amended 1 "ST-7" rLow).1 (by decide)
  · exact (C3_specific_gravity_amended 1 "ST-7" rGreen).2.2.1 (by decide) (by decide)

/-- C4 counterexample: the claim says an alarm evaluation/persistence error
does not roll back the reading; but check_alarms runs BEFORE db.commit(), so
with an alarm-persistence fault injected the reading is rolled back too (no
reading row, no broadcast), while the same frame without the fault persists
one reading. -/
theorem C4_counterexample :
    (MQTTService.process_device_data emptyDB frameColdST7 0 true).1.readings = []
    ∧ (MQTTService.process_device_data emptyDB frameColdST7 0 true).2 = none
    ∧ (MQTTService.process_device_data emptyDB frameColdST7 0 false).1.readings.length
        = 1 := by
  decide

/-- C4 amended: the reading and its alarms are committed in ONE transaction
after alarm evaluation; an error while creating an alarm rolls back the whole
frame including the reading, and only a run without such an error persists
the reading together with its alarms. -/
theorem C4_alarm_rollback_amended (db : DB) (f : Frame) (arrival : Int)
    (sd : SensorMap) (hcid : ¬(pyStrip f.did = ""))
    (hsd : buildSensorData f.content (fun _ => none) = some sd)
    (hdup : MQTTService.hasDuplicate db (pyStrip f.did)
        (MQTTService.deviceTimestamp f arrival) = false) :
    (MQTTService.check_alarms (MQTTService.resolveDevice db (pyStrip f.did)).2.id
        (pyStrip f.did)
        (buildReading (MQTTService.resolveDevice db (pyStrip f.did)).2.id
          (pyStrip f.did) sd (MQTTService.deviceTimestamp f arrival)) ≠ [] →
      (MQTTService.process_device_data db f arrival true).1.readings = db.readings
      ∧ (MQTTService.process_device_data db f arrival true).2 = none)
    ∧ ((MQTTService.process_device_data db f arrival false).1.readings
        = db.readings
          ++ [buildReading (MQTTService.resolveDevice db (pyStrip f.did)).2.id
                (pyStrip f.did) sd (MQTTService.deviceTimestamp f arrival)]
      ∧ (MQTTService.process_device_data db f arrival false).1.alarms
        = db.alarms
          ++ MQTTService.check_alarms
              (MQTTService.resolveDevice db (pyStrip f.did)).2.id (pyStrip f.did)
              (buildReading (MQTTService.resolveDevice db (pyStrip f.did)).2.id
                (pyStrip f.did) sd (MQTTService.deviceTimestamp f arrival))) := by
  constructor
  · intro halarms
    rw [MQTTService.process_alarm_rollback db f arrival hcid sd hsd hdup halarms]
    exact ⟨MQTTService.resolveDevice_readings db (pyStrip f.did), rfl⟩
  · rw [MQTTService.process_accept db f arrival hcid sd hsd hdup]
    constructor
    · rw [commitFrame_readings, MQTTService.resolveDevice_readings]
    · rw [commitFrame_alarms, MQTTService.resolveDevice_alarms]

theorem C4_witness :
    (MQTTService.process_device_data emptyDB frameColdST7 5 true).1.readings = []
    ∧ (MQTTService.process_device_data emptyDB frameColdST7 5 true).2 = none :=
  (C4_alarm_rollback_amended emptyDB frameColdST7 5
    (fun a => if a = some "T12" then some (-3) else none)
    (by decide) rfl (by decide)).1 (by decide)

/-- C5 counterexample: with live connections [1, 2, 3] and the send to 2
raising, the other two still receive and the error is logged, but connection
2 is NOT removed from the live set, contrary to the claim. -/
theorem C5_counterexample :
    (ConnectionManager.broadcast [1, 2, 3] (fun c => c == 2)).delivered = [1, 3]
    ∧ (ConnectionManager.broadcast [1, 2, 3] (fun c => c == 2)).errors_logged = [2]
    ∧ (ConnectionManager.broadcast [1, 2, 3] (fun c => c == 2)).connections_after
        = [1, 2, 3] := by
  decide

/-- C5 amended: each per-connection send is isolated — every non-failing
connection receives the message and every failing one is logged — but the
live set is left exactly as it was: broadcast never removes a connection
(removal happens only through the endpoint's disconnect call). -/
theorem C5_broadcast_amended (conns : List Nat) (sendFails : Nat → Bool) :
    ConnectionManager.broadcast conns sendFails
      = ⟨conns.filter (fun c => !(sendFails c)), conns.filter sendFails, conns⟩ := by
  unfold ConnectionManager.broadcast
  rw [broadcast_foldl]
  simp

/-- C9: a frame containing a sensor pair whose value cannot be converted to a
number aborts the whole frame with the transaction rolled back: no reading
and no alarm is persisted and no broadcast occurs, also for the well-formed
pairs of the same frame. -/
theorem C9_malformed_value_aborts_frame (db : DB) (f : Frame) (arrival : Int)
    (af : Bool) (h : ∃ it ∈ f.content, it.addrv.toFloat = none) :
    (MQTTService.process_device_data db f arrival af).1.readings = db.readings
    ∧ (MQTTService.process_device_data db f arrival af).1.alarms = db.alarms
    ∧ (MQTTService.process_device_data db f arrival af).2 = none := by
  have hsd : buildSensorData f.content (fun _ => none) = none :=
    (buildSensorData_eq_none f.content _).2 h
  by_cases hcid : pyStrip f.did = ""
  · rw [MQTTService.process_empty_id db f arrival af hcid]
    exact ⟨rfl, rfl, rfl⟩
  · rw [MQTTService.process_malformed db f arrival af hcid hsd]
    exact ⟨MQTTService.resolveDevice_readings db (pyStrip f.did),
      MQTTService.resolveDevice_alarms db (pyStrip f.did), rfl⟩

theorem C9_witness :
    (MQTTService.process_device_data emptyDB frameBadValue 0 false).1.readings = []
    ∧ (MQTTService.process_device_data emptyDB frameBadValue 0 false).1.alarms = []
    ∧ (MQTTService.process_device_data emptyDB frameBadValue 0 false).2 = none :=
  C9_malformed_value_aborts_frame emptyDB frameBadValue 0 false
    ⟨⟨some "T12", .malformed⟩, by decide, rfl⟩

/-- C10: a frame discarded as a duplicate leaves the persistent store exactly
as it was — in particular the station row keeps its old last_seen and
is_active values, because the in-memory update made before the dedup gate is
never committed — and nothing is broadcast. -/
theorem C10_duplicate_leaves_station_unchanged (db : DB) (f : Frame)
    (arrival : Int) (af : Bool) (d : Device) (sd : SensorMap)
    (hfound : findDevice db (pyStrip f.did) = some d)
    (hcid : ¬(pyStrip f.did = ""))
    (hsd : buildSensorData f.content (fun _ => none) = some sd)
    (hdup : MQTTService.hasDuplicate db (pyStrip f.did)
        (MQTTService.deviceTimestamp f arrival) = true) :
    MQTTService.process_device_data db f arrival af = (db, none) := by
  rw [MQTTService.process_duplicate db f arrival af hcid sd hsd hdup,
    MQTTService.resolveDevice_of_found hfound]

theorem C10_witness :
    MQTTService.process_device_data dbWithReading frameST7 99 false
      = (dbWithReading, none) :=
  C10_duplicate_leaves_station_unchanged dbWithReading frameST7 99 false devST7
    (fun _ => none) (by decide) (by decide) rfl (by decide)

/-- C6: liveness transitions. One sweep tick flips to inactive exactly the
currently-active devices whose last contact is older than the fixed 90-minute
staleness threshold (identifiers and last-contact unchanged, and the sweep
never activates anything); an accepted frame makes the station row active
with last contact equal to the arrival instant; and frame processing never
deactivates any device row. -/
theorem C6_liveness_transitions :
    (∀ (db : DB) (now : Int),
      List.Forall₂ (fun d d' =>
          d'.client_id = d.client_id
          ∧ d'.last_seen = d.last_seen
          ∧ (d'.is_active = true
              ↔ (d.is_active = true
                  ∧ ¬∃ t, d.last_seen = some t ∧ t < now - offlineStaleness)))
        db.devices (StandaloneMQTTListener.check_offline_devices db now).devices)
    ∧ (∀ (db : DB) (f : Frame) (arrival : Int) (mon : Bool) (sd : SensorMap),
        ¬(pyStrip f.did = "") →
        buildSensorData f.content (fun _ => none) = some sd →
        StandaloneMQTTListener.hasDuplicate db
            (StandaloneMQTTListener.resolveDevice db (pyStrip f.did)).2.id arrival
          = false →
        ∃ d', findDevice
                (StandaloneMQTTListener.process_device_data db f arrival mon false)
                (pyStrip f.did) = some d'
          ∧ d'.is_active = true ∧ d'.last_seen = some arrival)
    ∧ (∀ (db : DB) (f : Frame) (arrival : Int) (mon : Bool),
        ∀ d' ∈ (StandaloneMQTTListener.process_device_data
                  db f arrival mon false).devices,
          d' ∈ db.devices ∨ d'.is_active = true) := by
  refine ⟨check_offline_devices_forall2, ?_,
    StandaloneMQTTListener.process_devices_superset⟩
  intro db f arrival mon sd hcid hsd hdup
  exact ⟨_, StandaloneMQTTListener.process_find_after_accept db f arrival mon
    hcid sd hsd hdup, rfl, rfl⟩

theorem C6_witness :
    ∃ d', findDevice
        (StandaloneMQTTListener.process_device_data emptyDB frameST7 7 false false)
        "ST-7" = some d'
      ∧ d'.is_active = true ∧ d'.last_seen = some 7 :=
  C6_liveness_transitions.2.1 emptyDB frameST7 7 false (fun _ => none)
    (by decide) rfl (by decide)

/-- C7 counterexample: the claim says every frame's reading timestamp comes
from parsing the station-supplied time string; but the standalone listener
never reads Utime: a frame whose Utime parses fine is still stored with the
arrival instant. -/
theorem C7_counterexample :
    (StandaloneMQTTListener.process_device_data
        emptyDB frameST7 42 false false).readings.map (fun r => r.timestamp)
      = [42]
    ∧ parseUtime (pyStrip frameST7.utime) = some 65090512800 := by
  decide

/-- C7 amended: in the in-app service the reading timestamp is strptime of
the stripped Utime with the fixed pattern, silently falling back to arrival
when the field is empty and falling back WITH a logged warning when a
non-empty field fails to parse; the station-supplied time never aborts an
otherwise-accepted frame.  The standalone listener ignores Utime entirely and
always stores the arrival instant. -/
theorem C7_event_time_amended :
    (∀ (f : Frame) (arrival : Int),
      (pyStrip f.utime = "" →
        MQTTService.deviceTimestamp f arrival = arrival
        ∧ MQTTService.utimeWarningLogged f = false)
      ∧ (∀ t, ¬(pyStrip f.utime = "") → parseUtime (pyStrip f.utime) = some t →
          MQTTService.deviceTimestamp f arrival = t
          ∧ MQTTService.utimeWarningLogged f = false)
      ∧ (parseUtime (pyStrip f.utime) = none →
          MQTTService.deviceTimestamp f arrival = arrival
          ∧ (MQTTService.utimeWarningLogged f = true ↔ ¬(pyStrip f.utime = ""))))
    ∧ (∀ (db : DB) (f : Frame) (arrival : Int) (sd : SensorMap),
        ¬(pyStrip f.did = "") →
        buildSensorData f.content (fun _ => none) = some sd →
        MQTTService.hasDuplicate db (pyStrip f.did)
            (MQTTService.deviceTimestamp f arrival) = false →
        (MQTTService.process_device_data db f arrival false).1.readings
          = db.readings
            ++ [buildReading (MQTTService.resolveDevice db (pyStrip f.did)).2.id
                  (pyStrip f.did) sd (MQTTService.deviceTimestamp f arrival)])
    ∧ (∀ (db : DB) (f : Frame) (arrival : Int) (mon : Bool) (sd : SensorMap),
        ¬(pyStrip f.did = "") →
        buildSensorData f.content (fun _ => none) = some sd →
        StandaloneMQTTListener.hasDuplicate db
            (StandaloneMQTTListener.resolveDevice db (pyStrip f.did)).2.id arrival
          = false →
        (StandaloneMQTTListener.process_device_data db f arrival mon false).readings
          = db.readings
            ++ [buildReading
                  (StandaloneMQTTListener.resolveDevice db (pyStrip f.did)).2.id
                  (pyStrip f.did) sd arrival]) := by
  refine ⟨?_, ?_, ?_⟩
  · intro f arrival
    refine ⟨?_, ?_, ?_⟩
    · intro h
      refine ⟨MQTTService.deviceTimestamp_empty arrival h, ?_⟩
      unfold MQTTService.utimeWarningLogged
      simp [h]
    · intro t hne hp
      refine ⟨MQTTService.deviceTimestamp_parse arrival hne hp, ?_⟩
      unfold MQTTService.utimeWarningLogged
      simp [hp]
    · intro hp
      refine ⟨MQTTService.deviceTimestamp_fail arrival hp, ?_⟩
      unfold MQTTService.utimeWarningLogged
      by_cases h : pyStrip f.utime = "" <;> simp [h, hp]
  · intro db f arrival sd hcid hsd hdup
    rw [MQTTService.process_accept db f arrival hcid sd hsd hdup,
      commitFrame_readings, MQTTService.resolveDevice_readings]
  · intro db f arrival mon sd hcid hsd hdup
    rw [StandaloneMQTTListener.listener_process_accept db f arrival mon hcid sd hsd hdup,
      commitFrame_readings, StandaloneMQTTListener.listener_resolveDevice_readings]

theorem C7_witness :
    (MQTTService.process_device_data emptyDB frameST7 7 false).1.readings.map
        (fun r => r.timestamp) = [65090512800] := by
  have h := C7_event_time_amended.2.1 emptyDB frameST7 7 (fun _ => none)
    (by decide) rfl (by decide)
  rw [h]
  decide

/-- C8: for every accepted frame, each named quantity of the persisted
reading equals the numeric value of the LAST sensor pair of the frame
carrying that quantity's code (last write wins), and a quantity whose code is
absent is stored as zero (the columns are always populated, never null).
Both ingestion paths build the reading with the same code table. -/
theorem C8_reading_mapping (db : DB) (f : Frame) (arrival : Int)
    (sd : SensorMap) (hcid : ¬(pyStrip f.did = ""))
    (hsd : buildSensorData f.content (fun _ => none) = some sd) :
    (MQTTService.hasDuplicate db (pyStrip f.did)
        (MQTTService.deviceTimestamp f arrival) = false →
      ∃ r, (MQTTService.process_device_data db f arrival false).1.readings
          = db.readings ++ [r]
        ∧ r.temperature = (lastValue (some "T12") f.content).getD 0
        ∧ r.static_pressure = (lastValue (some "T11") f.content).getD 0
        ∧ r.differential_pressure = (lastValue (some "T10") f.content).getD 0
        ∧ r.max_static_pressure = (lastValue (some "T16") f.content).getD 0
        ∧ r.min_static_pressure = (lastValue (some "T17") f.content).getD 0
        ∧ r.volume = (lastValue (some "T14") f.content).getD 0
        ∧ r.total_volume_flow = (lastValue (some "T13") f.content).getD 0
        ∧ r.battery = (lastValue (some "T15") f.content).getD 0
        ∧ r.last_hour_flow_time = (lastValue (some "T18") f.content).getD 0
        ∧ r.last_hour_diff_pressure = (lastValue (some "T19") f.content).getD 0
        ∧ r.last_hour_static_pressure = (lastValue (some "T110") f.content).getD 0
        ∧ r.last_hour_temperature = (lastValue (some "T111") f.content).getD 0
        ∧ r.last_hour_volume = (lastValue (some "T112") f.content).getD 0
        ∧ r.last_hour_energy = (lastValue (some "T113") f.content).getD 0
        ∧ r.specific_gravity = (lastValue (some "T114") f.content).getD 0)
    ∧ (∀ mon, StandaloneMQTTListener.hasDuplicate db
          (StandaloneMQTTListener.resolveDevice db (pyStrip f.did)).2.id arrival
          = false →
      ∃ r, (StandaloneMQTTListener.process_device_data
              db f arrival mon false).readings
          = db.readings ++ [r]
        ∧ r.temperature = (lastValue (some "T12") f.content).getD 0
        ∧ r.static_pressure = (lastValue (some "T11") f.content).getD 0
        ∧ r.differential_pressure = (lastValue (some "T10") f.content).getD 0
        ∧ r.max_static_pressure = (lastValue (some "T16") f.content).getD 0
        ∧ r.min_static_pressure = (lastValue (some "T17") f.content).getD 0
        ∧ r.volume = (lastValue (some "T14") f.content).getD 0
        ∧ r.total_volume_flow = (lastValue (some "T13") f.content).getD 0
        ∧ r.battery = (lastValue (some "T15") f.content).getD 0
        ∧ r.last_hour_flow_time = (lastValue (some "T18") f.content).getD 0
        ∧ r.last_hour_diff_pressure = (lastValue (some "T19") f.content).getD 0
        ∧ r.last_hour_static_pressure = (lastValue (some "T110") f.content).getD 0
        ∧ r.last_hour_temperature = (lastValue (some "T111") f.content).getD 0
        ∧ r.last_hour_volume = (lastValue (some "T112") f.content).getD 0
        ∧ r.last_hour_energy = (lastValue (some "T113") f.content).getD 0
        ∧ r.specific_gravity = (lastValue (some "T114") f.content).getD 0) := by
  have hs : ∀ a, sd a = lastValue a f.content := by
    intro a
    rw [buildSensorData_lookup f.content _ sd hsd a]
    unfold lastValue
    cases lastItem a f.content <;> rfl
  constructor
  · intro hdup
    refine ⟨buildReading (MQTTService.resolveDevice db (pyStrip f.did)).2.id
      (pyStrip f.did) sd (MQTTService.deviceTimestamp f arrival),
      ?_, ?_, ?_, ?_, ?_, ?_, ?_, ?_, ?_, ?_, ?_, ?_, ?_, ?_, ?_, ?_⟩
    · rw [MQTTService.process_accept db f arrival hcid sd hsd hdup,
        commitFrame_readings, MQTTService.resolveDevice_readings]
    all_goals simp [buildReading, hs]
  · intro mon hdup
    refine ⟨buildReading
      (StandaloneMQTTListener.resolveDevice db (pyStrip f.did)).2.id
      (pyStrip f.did) sd arrival,
      ?_, ?_, ?_, ?_, ?_, ?_, ?_, ?_, ?_, ?_, ?_, ?_, ?_, ?_, ?_, ?_⟩
    · rw [StandaloneMQTTListener.listener_process_accept db f arrival mon hcid sd hsd hdup,
        commitFrame_readings, StandaloneMQTTListener.listener_resolveDevice_readings]
    all_goals simp [buildReading, hs]

theorem C8_witness :
    (MQTTService.process_device_data emptyDB frameDupCode 0 false).1.readings.map
        (fun r => (r.temperature, r.static_pressure, r.volume)) = [(2, 7, 0)] := by
  obtain ⟨r, heq, ht, hsp, _, _, _, hv, _, _, _, _, _, _, _, _, _⟩ :=
    (C8_reading_mapping emptyDB frameDupCode 0 sdDupCode (by decide) rfl).1
      (by decide)
  rw [heq, show emptyDB.readings = ([] : List DeviceReading) from rfl]
  simp only [List.nil_append, List.map_cons, List.map_nil]
  rw [ht, hsp, hv]
  decide

/-- C1 counterexample: the claim says submitting the same frame twice
persists exactly one reading, and cites the standalone listener's dedup; but
that path keys dedup on (device row, ARRIVAL instant), ignoring the
station-supplied timestamp: the same frame (with a perfectly parseable Utime)
processed at two distinct arrival instants is stored twice. -/
theorem C1_counterexample :
    (StandaloneMQTTListener.process_device_data
        (StandaloneMQTTListener.process_device_data emptyDB frameST7 0 false false)
        frameST7 1 false false).readings.length = 2
    ∧ ¬(parseUtime (pyStrip frameST7.utime) = none) := by
  decide

/-- C1 amended: in the in-app service the dedup key is (station identifier,
station-supplied event timestamp): a frame whose key is already stored is
discarded entirely (no reading, no alarm, no broadcast), and submitting the
same frame with a parseable Utime twice persists exactly one reading for its
key.  The at-most-one-reading-per-key invariant is preserved by every run of
the in-app path on its (client_id, timestamp) key and by every run of the
standalone path on its (device_id, timestamp) key; but the standalone
listener dedups on arrival time, not on the station-supplied timestamp (see
the counterexample). -/
theorem C1_dedup_amended :
    (∀ (db : DB) (f : Frame) (arrival : Int) (af : Bool) (sd : SensorMap),
        ¬(pyStrip f.did = "") →
        buildSensorData f.content (fun _ => none) = some sd →
        MQTTService.hasDuplicate db (pyStrip f.did)
            (MQTTService.deviceTimestamp f arrival) = true →
        (MQTTService.process_device_data db f arrival af).1.readings = db.readings
        ∧ (MQTTService.process_device_data db f arrival af).1.alarms = db.alarms
        ∧ (MQTTService.process_device_data db f arrival af).2 = none)
    ∧ (∀ (db : DB) (f : Frame) (a1 a2 t : Int) (sd : SensorMap),
        ¬(pyStrip f.did = "") →
        buildSensorData f.content (fun _ => none) = some sd →
        ¬(pyStrip f.utime = "") →
        parseUtime (pyStrip f.utime) = some t →
        MQTTService.hasDuplicate db (pyStrip f.did) t = false →
        readingCountByKey
          (MQTTService.process_device_data
            (MQTTService.process_device_data db f a1 false).1 f a2 false).1
          (pyStrip f.did) t = 1)
    ∧ (∀ (db : DB) (f : Frame) (arrival : Int) (af : Bool),
        serviceKeyUnique db.readings →
        serviceKeyUnique (MQTTService.process_device_data db f arrival af).1.readings)
    ∧ (∀ (db : DB) (f : Frame) (arrival : Int) (mon af : Bool),
        listenerKeyUnique db.readings →
        listenerKeyUnique
          (StandaloneMQTTListener.process_device_data db f arrival mon af).readings) := by
  refine ⟨?_, ?_, ?_, ?_⟩
  · intro db f arrival af sd hcid hsd hdup
    rw [MQTTService.process_duplicate db f arrival af hcid sd hsd hdup]
    exact ⟨MQTTService.resolveDevice_readings db (pyStrip f.did),
      MQTTService.resolveDevice_alarms db (pyStrip f.did), rfl⟩
  · intro db f a1 a2 t sd hcid hsd hne hpt hfresh
    have hts1 : MQTTService.deviceTimestamp f a1 = t :=
      MQTTService.deviceTimestamp_parse a1 hne hpt
    have hts2 : MQTTService.deviceTimestamp f a2 = t :=
      MQTTService.deviceTimestamp_parse a2 hne hpt
    have hdup1 : MQTTService.hasDuplicate db (pyStrip f.did)
        (MQTTService.deviceTimestamp f a1) = false := by
      rw [hts1]; exact hfresh
    have h1 := MQTTService.process_accept db f a1 hcid sd hsd hdup1
    have hr_mem : buildReading (MQTTService.resolveDevice db (pyStrip f.did)).2.id
        (pyStrip f.did) sd (MQTTService.deviceTimestamp f a1)
          ∈ (MQTTService.process_device_data db f a1 false).1.readings := by
      rw [h1, commitFrame_readings, MQTTService.resolveDevice_readings]
      exact List.mem_append_right _ (List.mem_singleton_self _)
    have hdup2 : MQTTService.hasDuplicate
        (MQTTService.process_device_data db f a1 false).1 (pyStrip f.did)
        (MQTTService.deviceTimestamp f a2) = true := by
      apply MQTTService.hasDuplicate_of_mem _ hr_mem rfl
      rw [hts2]
      exact hts1
    have h2 := MQTTService.process_duplicate
      (MQTTService.process_device_data db f a1 false).1 f a2 false hcid sd hsd hdup2
    unfold readingCountByKey
    rw [h2, MQTTService.resolveDevice_readings, h1, commitFrame_readings,
      MQTTService.resolveDevice_readings, List.filter_append]
    have hzero : db.readings.filter
        (fun r => r.client_id == pyStrip f.did && r.timestamp == t) = [] := by
      rw [List.filter_eq_nil_iff]
      intro r hr h
      apply MQTTService.hasDuplicate_false hfresh r hr
      simpa using h
    rw [hzero]
    simp [buildReading, hts1]
  · intro db f arrival af hU
    rcases MQTTService.process_readings_cases db f arrival af with h | ⟨sd, hsd, hdupf, h⟩
    · rw [h]; exact hU
    · rw [h]
      unfold serviceKeyUnique at hU ⊢
      rw [List.pairwise_append]
      refine ⟨hU, by simp, ?_⟩
      intro r hr r' hr'
      rw [List.mem_singleton] at hr'
      subst hr'
      have hnk := MQTTService.hasDuplicate_false hdupf r hr
      simpa [buildReading] using hnk
  · intro db f arrival mon af hU
    rcases StandaloneMQTTListener.listener_process_readings_cases db f arrival mon af with
      h | ⟨sd, hsd, hdupf, h⟩
    · rw [h]; exact hU
    · rw [h]
      unfold listenerKeyUnique at hU ⊢
      rw [List.pairwise_append]
      refine ⟨hU, by simp, ?_⟩
      intro r hr r' hr'
      rw [List.mem_singleton] at hr'
      subst hr'
      have hnk := StandaloneMQTTListener.listener_hasDuplicate_false hdupf r hr
      simpa [buildReading] using hnk

theorem C1_witness :
    readingCountByKey
      (MQTTService.process_device_data
        (MQTTService.process_device_data emptyDB frameST7 0 false).1
        frameST7 5 false).1
      "ST-7" 65090512800 = 1 :=
  C1_dedup_amended.2.1 emptyDB frameST7 0 5 65090512800 (fun _ => none)
    (by decide) rfl (by decide) (by decide) (by decide)

/-- C2: the four-parameter threshold rules use strict inequalities with
exactly the stated boundaries and severities, in BOTH engines: temperature
< 0 low/high-severity and > 120 high/medium-severity; static pressure < 10
low/medium and > 140 high/high; differential pressure < 0 low/medium and
> 400 high/high; battery < 10 low/high and > 14 high/medium; a value exactly
on a boundary raises nothing; and no value can trigger both the low and the
high rule for the same parameter on one reading. -/
theorem C2_threshold_rules (did : Nat) (cid : String) (r : DeviceReading) :
    ((r.temperature < 0 →
        alarmsFor "temperature" (MQTTService.check_alarms did cid r)
          = [⟨did, cid, "temperature", r.temperature, "low", "high", false⟩]
        ∧ alarmsFor "temperature" (StandaloneMQTTListener.check_alarms did cid r)
          = [⟨did, cid, "temperature", r.temperature, "low", "high", false⟩])
     ∧ (r.temperature > 120 →
        alarmsFor "temperature" (MQTTService.check_alarms did cid r)
          = [⟨did, cid, "temperature", r.temperature, "high", "medium", false⟩]
        ∧ alarmsFor "temperature" (StandaloneMQTTListener.check_alarms did cid r)
          = [⟨did, cid, "temperature", r.temperature, "high", "medium", false⟩])
     ∧ (0 ≤ r.temperature → r.temperature ≤ 120 →
        alarmsFor "temperature" (MQTTService.check_alarms did cid r) = []
        ∧ alarmsFor "temperature" (StandaloneMQTTListener.check_alarms did cid r)
          = []))
    ∧ ((r.static_pressure < 10 →
        alarmsFor "static_pressure" (MQTTService.check_alarms did cid r)
          = [⟨did, cid, "static_pressure", r.static_pressure, "low", "medium", false⟩]
        ∧ alarmsFor "static_pressure" (StandaloneMQTTListener.check_alarms did cid r)
          = [⟨did, cid, "static_pressure", r.static_pressure, "low", "medium", false⟩])
     ∧ (r.static_pressure > 140 →
        alarmsFor "static_pressure" (MQTTService.check_alarms did cid r)
          = [⟨did, cid, "static_pressure", r.static_pressure, "high", "high", false⟩]
        ∧ alarmsFor "static_pressure" (StandaloneMQTTListener.check_alarms did cid r)
          = [⟨did, cid, "static_pressure", r.static_pressure, "high", "high", false⟩])
     ∧ (10 ≤ r.static_pressure → r.static_pressure ≤ 140 →
        alarmsFor "static_pressure" (MQTTService.check_alarms did cid r) = []
        ∧ alarmsFor "static_pressure" (StandaloneMQTTListener.check_alarms did cid r)
          = []))
    ∧ ((r.differential_pressure < 0 →
        alarmsFor "differential_pressure" (MQTTService.check_alarms did cid r)
          = [⟨did, cid, "differential_pressure", r.differential_pressure,
              "low", "medium", false⟩]
        ∧ alarmsFor "differential_pressure"
            (StandaloneMQTTListener.check_alarms did cid r)
          = [⟨did, cid, "differential_pressure", r.differential_pressure,
              "low", "medium", false⟩])
     ∧ (r.differential_pressure > 400 →
        alarmsFor "differential_pressure" (MQTTService.check_alarms did cid r)
          = [⟨did, cid, "differential_pressure", r.differential_pressure,
              "high", "high", false⟩]
        ∧ alarmsFor "differential_pressure"
            (StandaloneMQTTListener.check_alarms did cid r)
          = [⟨did, cid, "differential_pressure", r.differential_pressure,
              "high", "high", false⟩])
     ∧ (0 ≤ r.differential_pressure → r.differential_pressure ≤ 400 →
        alarmsFor "differential_pressure" (MQTTService.check_alarms did cid r) = []
        ∧ alarmsFor "differential_pressure"
            (StandaloneMQTTListener.check_alarms did cid r) = []))
    ∧ ((r.battery < 10 →
        alarmsFor "battery" (MQTTService.check_alarms did cid r)
          = [⟨did, cid, "battery", r.battery, "low", "high", false⟩]
        ∧ alarmsFor "battery" (StandaloneMQTTListener.check_alarms did cid r)
          = [⟨did, cid, "battery", r.battery, "low", "high", false⟩])
     ∧ (r.battery > 14 →
        alarmsFor "battery" (MQTTService.check_alarms did cid r)
          = [⟨did, cid, "battery", r.battery, "high", "medium", false⟩]
        ∧ alarmsFor "battery" (StandaloneMQTTListener.check_alarms did cid r)
          = [⟨did, cid, "battery", r.battery, "high", "medium", false⟩])
     ∧ (10 ≤ r.battery → r.battery ≤ 14 →
        alarmsFor "battery" (MQTTService.check_alarms did cid r) = []
        ∧ alarmsFor "battery" (StandaloneMQTTListener.check_alarms did cid r)
          = []))
    ∧ (∀ a b, a ∈ MQTTService.check_alarms did cid r →
        b ∈ MQTTService.check_alarms did cid r →
        a.parameter = b.parameter →
        a.threshold_type = "low" → b.threshold_type = "high" → False)
    ∧ (∀ a b, a ∈ StandaloneMQTTListener.check_alarms did cid r →
        b ∈ StandaloneMQTTListener.check_alarms did cid r →
        a.parameter = b.parameter →
        a.threshold_type = "low" → b.threshold_type = "high" → False) := by
  refine ⟨⟨?_, ?_, ?_⟩, ⟨?_, ?_, ?_⟩, ⟨?_, ?_, ?_⟩, ⟨?_, ?_, ?_⟩, ?_, ?_⟩
  · intro h
    exact ⟨by rw [alarmsFor_svc_temperature, temperature_alarms_low did cid r h],
      by rw [alarmsFor_lst_temperature, temperature_alarms_low did cid r h]⟩
  · intro h
    exact ⟨by rw [alarmsFor_svc_temperature, temperature_alarms_high did cid r h],
      by rw [alarmsFor_lst_temperature, temperature_alarms_high did cid r h]⟩
  · intro h1 h2
    exact ⟨by rw [alarmsFor_svc_temperature,
        temperature_alarms_none did cid r h1 h2],
      by rw [alarmsFor_lst_temperature, temperature_alarms_none did cid r h1 h2]⟩
  · intro h
    exact ⟨by rw [alarmsFor_svc_static_pressure,
        static_pressure_alarms_low did cid r h],
      by rw [alarmsFor_lst_static_pressure, static_pressure_alarms_low did cid r h]⟩
  · intro h
    exact ⟨by rw [alarmsFor_svc_static_pressure,
        static_pressure_alarms_high did cid r h],
      by rw [alarmsFor_lst_static_pressure,
        static_pressure_alarms_high did cid r h]⟩
  · intro h1 h2
    exact ⟨by rw [alarmsFor_svc_static_pressure,
        static_pressure_alarms_none did cid r h1 h2],
      by rw [alarmsFor_lst_static_pressure,
        static_pressure_alarms_none did cid r h1 h2]⟩
  · intro h
    exact ⟨by rw [alarmsFor_svc_differential_pressure,
        differential_pressure_alarms_low did cid r h],
      by rw [alarmsFor_lst_differential_pressure,
        differential_pressure_alarms_low did cid r h]⟩
  · intro h
    exact ⟨by rw [alarmsFor_svc_differential_pressure,
        differential_pressure_alarms_high did cid r h],
      by rw [alarmsFor_lst_differential_pressure,
        differential_pressure_alarms_high did cid r h]⟩
  · intro h1 h2
    exact ⟨by rw [alarmsFor_svc_differential_pressure,
        differential_pressure_alarms_none did cid r h1 h2],
      by rw [alarmsFor_lst_differential_pressure,
        differential_pressure_alarms_none did cid r h1 h2]⟩
  · intro h
    exact ⟨by rw [alarmsFor_svc_battery, battery_alarms_low did cid r h],
      by rw [alarmsFor_lst_battery, battery_alarms_low did cid r h]⟩
  · intro h
    exact ⟨by rw [alarmsFor_svc_battery, battery_alarms_high did cid r h],
      by rw [alarmsFor_lst_battery, battery_alarms_high did cid r h]⟩
  · intro h1 h2
    exact ⟨by rw [alarmsFor_svc_battery, battery_alarms_none did cid r h1 h2],
      by rw [alarmsFor_lst_battery, battery_alarms_none did cid r h1 h2]⟩
  · intro a b ha hb hpar hl hh
    have hb' := hb
    simp only [MQTTService.check_alarms, List.mem_append] at ha
    rcases ha with ((ha | ha) | ha) | ha
    · have pa := temperature_alarms_param did cid r a ha
      have hbf : b ∈ alarmsFor "temperature" (MQTTService.check_alarms did cid r) :=
        mem_alarmsFor_of_param hb' (by rw [← hpar]; exact pa)
      rw [alarmsFor_svc_temperature] at hbf
      exact temperature_alarms_lowhigh ha hbf hl hh
    · have pa := static_pressure_alarms_param did cid r a ha
      have hbf : b ∈ alarmsFor "static_pressure"
          (MQTTService.check_alarms did cid r) :=
        mem_alarmsFor_of_param hb' (by rw [← hpar]; exact pa)
      rw [alarmsFor_svc_static_pressure] at hbf
      exact static_pressure_alarms_lowhigh ha hbf hl hh
    · have pa := differential_pressure_alarms_param did cid r a ha
      have hbf : b ∈ alarmsFor "differential_pressure"
          (MQTTService.check_alarms did cid r) :=
        mem_alarmsFor_of_param hb' (by rw [← hpar]; exact pa)
      rw [alarmsFor_svc_differential_pressure] at hbf
      exact differential_pressure_alarms_lowhigh ha hbf hl hh
    · have pa := battery_alarms_param did cid r a ha
      have hbf : b ∈ alarmsFor "battery" (MQTTService.check_alarms did cid r) :=
        mem_alarmsFor_of_param hb' (by rw [← hpar]; exact pa)
      rw [alarmsFor_svc_battery] at hbf
      exact battery_alarms_lowhigh ha hbf hl hh
  · intro a b ha hb hpar hl hh
    have hb' := hb
    simp only [StandaloneMQTTListener.check_alarms, List.mem_append] at ha
    rcases ha with (((ha | ha) | ha) | ha) | ha
    · have pa := temperature_alarms_param did cid r a ha
      have hbf : b ∈ alarmsFor "temperature"
          (StandaloneMQTTListener.check_alarms did cid r) :=
        mem_alarmsFor_of_param hb' (by rw [← hpar]; exact pa)
      rw [alarmsFor_lst_temperature] at hbf
      exact temperature_alarms_lowhigh ha hbf hl hh
    · have pa := static_pressure_alarms_param did cid r a ha
      have hbf : b ∈ alarmsFor "static_pressure"
          (StandaloneMQTTListener.check_alarms did cid r) :=
        mem_alarmsFor_of_param hb' (by rw [← hpar]; exact pa)
      rw [alarmsFor_lst_static_pressure] at hbf
      exact static_pressure_alarms_lowhigh ha hbf hl hh
    · have pa := differential_pressure_alarms_param did cid r a ha
      have hbf : b ∈ alarmsFor "differential_pressure"
          (StandaloneMQTTListener.check_alarms did cid r) :=
        mem_alarmsFor_of_param hb' (by rw [← hpar]; exact pa)
      rw [alarmsFor_lst_differential_pressure] at hbf
      exact differential_pressure_alarms_lowhigh ha hbf hl hh
    · have pa := battery_alarms_param did cid r a ha
      have hbf : b ∈ alarmsFor "battery"
          (StandaloneMQTTListener.check_alarms did cid r) :=
        mem_alarmsFor_of_param hb' (by rw [← hpar]; exact pa)
      rw [alarmsFor_lst_battery] at hbf
      exact battery_alarms_lowhigh ha hbf hl hh
    · have pa := specific_gravity_alarms_param did cid r a ha
      have hbf : b ∈ alarmsFor "specific_gravity"
          (StandaloneMQTTListener.check_alarms did cid r) :=
        mem_alarmsFor_of_param hb' (by rw [← hpar]; exact pa)
      rw [alarmsFor_lst_specific_gravity] at hbf
      exact specific_gravity_alarms_lowhigh ha hbf hl hh

theorem C2_witness :
    alarmsFor "temperature" (MQTTService.check_alarms 1 "ST-7" rLow)
      = [⟨1, "ST-7", "temperature", rLow.temperature, "low", "high", false⟩]
    ∧ alarmsFor "battery" (StandaloneMQTTListener.check_alarms 1 "ST-7" rLow)
      = [⟨1, "ST-7", "battery", rLow.battery, "low", "high", false⟩]
    ∧ alarmsFor "static_pressure" (MQTTService.check_alarms 1 "ST-7" rHigh)
      = [⟨1, "ST-7", "static_pressure", rHigh.static_pressure, "high", "high", false⟩]
    ∧ alarmsFor "differential_pressure"
        (StandaloneMQTTListener.check_alarms 1 "ST-7" rHigh)
      = [⟨1, "ST-7", "differential_pressure", rHigh.differential_pressure,
          "high", "high", false⟩]
    ∧ alarmsFor "temperature" (MQTTService.check_alarms 1 "ST-7" rGreen) = []
    ∧ alarmsFor "battery" (MQTTService.check_alarms 1 "ST-7" rGreen) = [] := by
  refine ⟨?_, ?_, ?_, ?_, ?_, ?_⟩
  · exact ((C2_threshold_rules 1 "ST-7" rLow).1.1 (by decide)).1
  · exact ((C2_threshold_rules 1 "ST-7" rLow).2.2.2.1.1 (by decide)).2
  · exact ((C2_threshold_rules 1 "ST-7" rHigh).2.1.2.1 (by decide)).1
  · exact ((C2_threshold_rules 1 "ST-7" rHigh).2.2.1.2.1 (by decide)).2
  · exact ((C2_threshold_rules 1 "ST-7" rGreen).1.2.2 (by decide) (by decide)).1
  · exact ((C2_threshold_rules 1 "ST-7" rGreen).2.2.2.1.2.2 (by decide)
      (by decide)).1
